import Mathlib

/-!
# Verification of `backend/app.py` (minimax_aipodcast)

A shallow embedding of the Flask backend in `src/backend/app.py`.
Request handlers become Lean functions; the SSE generator becomes a
function producing the list of emitted events; calls into the external
helper modules (`content_parser`, `voice_manager`, `podcast_generator`)
become oracle functions supplied as parameters, each returning
`Except String _` so that a raised exception is representable.
The embedding is instrumented: each handler result also records which
external calls were made (with their arguments) and which files were
saved, so that frame and never-invoked properties are statable.
-/

/-- An SSE event, as the JSON dicts built in `app.py`: a `type` tag plus
the optional fields used by the various event shapes. -/
structure Event where
  type : String
  message : Option String := none
  step : Option String := none
  api : Option String := none
  trace_id : Option String := none
  error_code : Option String := none
  deriving DecidableEq, Repr

/-- `{'type': 'progress', 'step': s, 'message': m}` -/
def progressEvent (s m : String) : Event :=
  { type := "progress", step := some s, message := some m }

/-- `{'type': 'log', 'message': m}` -/
def logEvent (m : String) : Event :=
  { type := "log", message := some m }

/-- `{'type': 'error', 'message': m}` -/
def errEvent (m : String) : Event :=
  { type := "error", message := some m }

/-- `{'type': 'url_parse_warning', 'message': m, 'error_code': c}` (line 160) -/
def warnEvent (m c : String) : Event :=
  { type := "url_parse_warning", message := some m, error_code := some c }

/-- `{'type': 'trace_id', 'api': k, 'trace_id': t}` (line 217) -/
def traceEvent (k t : String) : Event :=
  { type := "trace_id", api := some k, trace_id := some t }

/-- The event yielded by the `except Exception` handler at line 234. -/
def excEvent (e : String) : Event :=
  errEvent ("播客生成失败: " ++ e)

/-- Result dict of `content_parser.parse_pdf` / `parse_url`, with the keys
read by `app.py` (`success`, `content`, `logs`, `error`, `error_code`). -/
structure ParseResult where
  success : Bool
  content : String := ""
  logs : List String := []
  error : String := ""
  error_code : String := "unknown"
  deriving DecidableEq, Repr

/-- Speaker configuration dict built at lines 178-201: a `type` tag plus
optionally `voice_name` (default voices) or `audio_file` (custom voices). -/
structure SpeakerConfig where
  type : String
  voice_name : Option String := none
  audio_file : Option String := none
  deriving DecidableEq, Repr

/-- Result dict of `voice_manager.prepare_voices`, with the keys read by
`app.py` (`success`, `error`, `logs`, `trace_ids`, `speaker1`, `speaker2`). -/
structure VoicesResult where
  success : Bool
  speaker1 : String := ""
  speaker2 : String := ""
  logs : List String := []
  error : String := ""
  trace_ids : List (String × String) := []
  deriving DecidableEq, Repr

/-- The external helper modules, as oracle functions.  Each call may
either return a value (`Except.ok`) or raise an exception carrying a
message (`Except.error`), matching what the `try/except` in `app.py`
can observe.  `gen_stream` models `podcast_generator.generate_podcast_stream
(content, speaker1_voice_id, speaker2_voice_id, session_id, api_key)`:
a list of events yielded, then optionally an exception raised mid-stream. -/
structure Oracles where
  parse_pdf : String → Except String ParseResult
  parse_url : String → Except String ParseResult
  merge_contents : String → String → String → Except String String
  prepare_voices : SpeakerConfig → SpeakerConfig → String → Except String VoicesResult
  gen_stream : String → String → String → String → String → List Event × Option String

/-- Split a character list at every occurrence of `c` (the semantics of
Python `str.split(sep)` for a single-character separator, hence of
`rsplit(sep, 1)` once only the last piece is taken). -/
def splitChar (c : Char) : List Char → List (List Char)
  | [] => [[]]
  | x :: xs =>
    match splitChar c xs with
    | [] => [[]]
    | h :: t => if x = c then [] :: h :: t else (x :: h) :: t

/-- Python `str.strip()`: remove whitespace from both ends. -/
def pyStrip (s : String) : String :=
  ⟨(((s.data.dropWhile Char.isWhitespace).reverse.dropWhile
      Char.isWhitespace).reverse)⟩

/-- Python `str.lower()` (on the ASCII extensions involved). -/
def pyLower (s : String) : String := ⟨s.data.map Char.toLower⟩

/-- Join a list of strings with a separator between consecutive parts. -/
def joinParts (sep : String) : List String → String
  | [] => ""
  | [s] => s
  | s :: rest => s ++ sep ++ joinParts sep rest

/-- Modelled from the spec: `content_parser.merge_contents` is not under
`src/`; the spec says merged content is "a single text blob concatenated
from up to three optional sources (direct text, URL-extracted text,
PDF-extracted text)", and `app.py` line 168 shows it returns the sentinel
"没有可用的内容" when no source is available. -/
def merge_contents (text url pdf : String) : String :=
  let parts := [text, url, pdf].filter (fun s => s ≠ "")
  if parts = [] then "没有可用的内容"
  else joinParts "\n\n" parts

/-- Modelled from the spec: `config.UPLOAD_DIR`, the local upload
directory; its concrete value is irrelevant to the claims. -/
def UPLOAD_DIR : String := "uploads"

/-- `ALLOWED_AUDIO_EXTENSIONS` (line 36). -/
def ALLOWED_AUDIO_EXTENSIONS : List String := ["wav", "mp3", "flac", "m4a", "ogg"]

/-- `ALLOWED_PDF_EXTENSIONS` (line 37). -/
def ALLOWED_PDF_EXTENSIONS : List String := ["pdf"]

/-- `allowed_file` (lines 40-42): `'.' in filename and
filename.rsplit('.', 1)[1].lower() in allowed_extensions`.
`rsplit('.', 1)[1]` is the substring after the last dot, i.e. the last
element of the split on `'.'`. -/
def allowed_file (filename : String) (allowed_extensions : List String) : Bool :=
  filename.data.contains '.' &&
    allowed_extensions.contains (pyLower ⟨(splitChar '.' filename.data).getLastD []⟩)

/-- The multipart form of a `/api/generate_podcast` request, after Flask
parsing: form fields with the defaults `request.form.get` applies, and
the filename of each file slot when present (a `FileStorage` is falsy
exactly when its filename is empty, which the `if file_obj and ...`
truthiness tests check). -/
structure GenRequest where
  api_key : String := ""
  text_input : String := ""
  url : String := ""
  pdf_file : Option String := none
  speaker1_type : String := "default"
  speaker1_voice_name : String := "mini"
  speaker1_audio : Option String := none
  speaker2_type : String := "default"
  speaker2_voice_name : String := "max"
  speaker2_audio : Option String := none
  deriving DecidableEq, Repr

/-- Lines 96-104: the secure filename of the PDF upload, when the slot
is present, the file object truthy, and `allowed_file` accepts it. -/
def pdfName (sf : String → String) (r : GenRequest) : Option String :=
  match r.pdf_file with
  | some fn =>
    if fn ≠ "" ∧ allowed_file fn ALLOWED_PDF_EXTENSIONS then some (sf fn)
    else none
  | none => none

/-- Lines 96-104: the path the PDF upload is saved under, when saved. -/
def pdfPath (sf : String → String) (session_id : String) (r : GenRequest) :
    Option String :=
  (pdfName sf r).map (fun n => UPLOAD_DIR ++ "/" ++ session_id ++ "_" ++ n)

/-- Lines 110-125: the path a speaker's audio upload is saved under —
only when the speaker type is `'custom'`, the slot is present, the file
object truthy, and `allowed_file` accepts it. -/
def audioPath (sf : String → String) (session_id : String)
    (speakerType : String) (slot : Option String) (tag : String) :
    Option String :=
  if speakerType = "custom" then
    match slot with
    | some fn =>
      if fn ≠ "" ∧ allowed_file fn ALLOWED_AUDIO_EXTENSIONS then
        some (UPLOAD_DIR ++ "/" ++ session_id ++ "_" ++ tag ++ "_" ++ sf fn)
      else none
    | none => none
  else none

/-- The request-context data extracted by `generate_podcast` before the
generator is defined (lines 78-125), plus the list of file paths saved
to disk, in save order. -/
structure Extracted where
  session_id : String
  user_api_key : String
  text_input : String
  url_input : String
  pdf_file : Option String
  pdf_path : Option String
  speaker1_type : String
  speaker1_voice_name : String
  speaker1_audio_path : Option String
  speaker2_type : String
  speaker2_voice_name : String
  speaker2_audio_path : Option String
  saved : List String
  deriving DecidableEq, Repr

/-- Lines 92-125 of `generate_podcast`: strip the text fields, and save
each uploaded file slot iff the slot is present, the file object is
truthy, and `allowed_file` accepts it (for the audio slots, additionally
only when the speaker type is `'custom'`).  `sf` is `werkzeug`'s
`secure_filename`. -/
def extract (sf : String → String) (session_id : String) (r : GenRequest) :
    Extracted :=
  { session_id := session_id
    user_api_key := pyStrip r.api_key
    text_input := pyStrip r.text_input
    url_input := pyStrip r.url
    pdf_file := pdfName sf r
    pdf_path := pdfPath sf session_id r
    speaker1_type := r.speaker1_type
    speaker1_voice_name := r.speaker1_voice_name
    speaker1_audio_path := audioPath sf session_id r.speaker1_type
      r.speaker1_audio "speaker1"
    speaker2_type := r.speaker2_type
    speaker2_voice_name := r.speaker2_voice_name
    speaker2_audio_path := audioPath sf session_id r.speaker2_type
      r.speaker2_audio "speaker2"
    saved := (pdfPath sf session_id r).toList
      ++ (audioPath sf session_id r.speaker1_type r.speaker1_audio "speaker1").toList
      ++ (audioPath sf session_id r.speaker2_type r.speaker2_audio "speaker2").toList }

/-- The result of running the SSE generator `generate` (lines 127-234):
the events yielded in order, the exception caught by the
`except Exception` handler if any, and an instrumentation record of
the external calls made with their arguments. -/
structure GenResult where
  events : List Event
  exn : Option String := none
  mergeArgs : Option (String × String × String) := none
  prepareVoicesArgs : Option (SpeakerConfig × SpeakerConfig × String) := none
  genStreamArgs : Option (String × String × String × String × String) := none
  deriving DecidableEq, Repr

/-- Step 3 of the generator (lines 222-230): iterate
`podcast_generator.generate_podcast_stream`, yielding each event. -/
def stepGen (o : Oracles) (x : Extracted) (acc : List Event)
    (merged v1 v2 : String) : GenResult :=
  let st := o.gen_stream merged v1 v2 x.session_id x.user_api_key
  match st.2 with
  | none =>
    { events := acc ++ st.1
      genStreamArgs := some (merged, v1, v2, x.session_id, x.user_api_key) }
  | some e =>
    { events := acc ++ st.1 ++ [excEvent e], exn := some e
      genStreamArgs := some (merged, v1, v2, x.session_id, x.user_api_key) }

/-- Lines 203-220: call `voice_manager.prepare_voices`, abort on failure,
then yield its logs and the nonempty trace ids. -/
def stepPrepare (o : Oracles) (x : Extracted) (acc : List Event)
    (merged : String) (c1 c2 : SpeakerConfig) : GenResult :=
  match o.prepare_voices c1 c2 x.user_api_key with
  | .error e =>
    { events := acc ++ [excEvent e], exn := some e
      prepareVoicesArgs := some (c1, c2, x.user_api_key) }
  | .ok vr =>
    if vr.success then
      let acc := acc ++ vr.logs.map logEvent
        ++ (vr.trace_ids.filter (fun kv => kv.2 ≠ "")).map
             (fun kv => traceEvent kv.1 kv.2)
      let rest := stepGen o x acc merged vr.speaker1 vr.speaker2
      { rest with prepareVoicesArgs := some (c1, c2, x.user_api_key) }
    else
      { events := acc ++ [errEvent vr.error]
        prepareVoicesArgs := some (c1, c2, x.user_api_key) }

/-- Lines 190-201: build the Speaker2 configuration, aborting when
Speaker2 is custom but no audio file was saved. -/
def stepVoices2 (o : Oracles) (x : Extracted) (acc : List Event)
    (merged : String) (c1 : SpeakerConfig) : GenResult :=
  if x.speaker2_type = "default" then
    stepPrepare o x acc merged c1
      { type := "default", voice_name := some x.speaker2_voice_name }
  else if x.speaker2_type = "custom" then
    match x.speaker2_audio_path with
    | some p =>
      stepPrepare o x (acc ++ [logEvent "Speaker2 音频已上传"]) merged c1
        { type := "custom", audio_file := some p }
    | none =>
      { events := acc ++ [errEvent "Speaker2 选择自定义音色但未上传音频文件"] }
  else
    stepPrepare o x acc merged c1 { type := x.speaker2_type }

/-- Lines 174-189: yield the `preparing_voices` progress event and build
the Speaker1 configuration, aborting when Speaker1 is custom but no
audio file was saved. -/
def stepVoices (o : Oracles) (x : Extracted) (acc : List Event)
    (merged : String) : GenResult :=
  let acc := acc ++ [progressEvent "preparing_voices" "正在准备音色..."]
  if x.speaker1_type = "default" then
    stepVoices2 o x acc merged
      { type := "default", voice_name := some x.speaker1_voice_name }
  else if x.speaker1_type = "custom" then
    match x.speaker1_audio_path with
    | some p =>
      stepVoices2 o x (acc ++ [logEvent "Speaker1 音频已上传"]) merged
        { type := "custom", audio_file := some p }
    | none =>
      { events := acc ++ [errEvent "Speaker1 选择自定义音色但未上传音频文件"] }
  else
    stepVoices2 o x acc merged { type := x.speaker1_type }

/-- Lines 165-172: merge the three content sources and abort when the
result is empty or the "no available content" sentinel. -/
def stepMerge (o : Oracles) (x : Extracted) (acc : List Event)
    (pdf_content url_content : String) : GenResult :=
  match o.merge_contents x.text_input url_content pdf_content with
  | .error e =>
    { events := acc ++ [excEvent e], exn := some e
      mergeArgs := some (x.text_input, url_content, pdf_content) }
  | .ok m =>
    if m = "" ∨ m = "没有可用的内容" then
      { events := acc ++ [errEvent "请至少提供一种输入内容（文本/网址/PDF）"]
        mergeArgs := some (x.text_input, url_content, pdf_content) }
    else
      let rest := stepVoices o x
        (acc ++ [logEvent ("内容解析完成，共 " ++ toString m.length ++ " 字符")]) m
      { rest with mergeArgs := some (x.text_input, url_content, pdf_content) }

/-- Lines 147-163: parse the URL when one was supplied; on failure yield
a `url_parse_warning` plus the result's logs and continue with no URL
content, instead of aborting. -/
def stepUrl (o : Oracles) (x : Extracted) (acc : List Event)
    (pdf_content : String) : GenResult :=
  if x.url_input ≠ "" then
    let acc := acc ++ [logEvent ("开始解析网址: " ++ x.url_input)]
    match o.parse_url x.url_input with
    | .error e => { events := acc ++ [excEvent e], exn := some e }
    | .ok ur =>
      if ur.success then
        stepMerge o x (acc ++ ur.logs.map logEvent) pdf_content ur.content
      else
        stepMerge o x
          (acc ++ [warnEvent ur.error ur.error_code] ++ ur.logs.map logEvent)
          pdf_content ""
  else
    stepMerge o x acc pdf_content ""

/-- The SSE generator `generate` (lines 127-234): yield the
`parsing_content` progress event, parse the PDF when one was saved
(aborting on parse failure), then continue with the URL step.  Any
exception raised by an oracle call is caught and surfaced as a final
`excEvent`, matching the `try/except Exception` wrapping the body. -/
def generate (o : Oracles) (x : Extracted) : GenResult :=
  let acc := [progressEvent "parsing_content" "正在解析输入内容..."]
  match x.pdf_path with
  | some p =>
    let acc := acc ++ [logEvent ("已上传 PDF: " ++ x.pdf_file.getD "")]
    match o.parse_pdf p with
    | .error e => { events := acc ++ [excEvent e], exn := some e }
    | .ok pr =>
      if pr.success then
        stepUrl o x (acc ++ pr.logs.map logEvent) pr.content
      else
        { events := acc ++ [errEvent pr.error] }
  | none => stepUrl o x acc ""

/-- The response of `/api/generate_podcast`: the SSE events streamed,
the files saved, and the instrumentation of the generator run (absent
when the API-key check rejects the request before the generator exists). -/
structure EndpointResult where
  events : List Event
  saved : List String := []
  gen : Option GenResult := none
  deriving DecidableEq, Repr

/-- The `/api/generate_podcast` handler `generate_podcast`
(lines 61-236): reject a missing API key with a single error event;
otherwise extract the form data, save the uploads, and stream the
generator.  `sf` is `secure_filename` and `session_id` is the fresh
`str(uuid.uuid4())` of line 78. -/
def generate_podcast (sf : String → String) (session_id : String)
    (o : Oracles) (r : GenRequest) : EndpointResult :=
  if pyStrip r.api_key = "" then
    { events := [errEvent "未提供 API Key"] }
  else
    let x := extract sf session_id r
    let g := generate o x
    { events := g.events, saved := x.saved, gen := some g }

/-- The form of an `/api/upload_audio` request: the `audio` file slot
(its filename when the part is present) and the optional `session_id`
and `speaker` form fields (`request.form.get` returns the default only
when the key is absent). -/
structure UploadRequest where
  audio : Option String := none
  session_id : Option String := none
  speaker : Option String := none
  deriving DecidableEq, Repr

/-- The JSON response of `/api/upload_audio`, plus the paths saved. -/
structure UploadResult where
  success : Bool
  error : String := ""
  filepath : String := ""
  filename : String := ""
  saved : List String := []
  deriving DecidableEq, Repr

/-- The `/api/upload_audio` handler `upload_audio` (lines 239-270):
reject a missing or falsy audio part, otherwise build the filename
`f"{session_id}_{speaker}_{int(time.time())}.wav"` — with `session_id`
taken from the form when supplied, else the fresh `str(uuid.uuid4())`
`fresh` — save the file under it, and report success.  `now` is
`int(time.time())`. -/
def upload_audio (fresh : String) (now : Nat) (r : UploadRequest) :
    UploadResult :=
  match r.audio with
  | none => { success := false, error := "未提供音频文件" }
  | some fn =>
    if fn = "" then { success := false, error := "音频文件为空" }
    else
      let sid := r.session_id.getD fresh
      let speaker := r.speaker.getD "unknown"
      let filename := sid ++ "_" ++ speaker ++ "_" ++ toString now ++ ".wav"
      let file_path := UPLOAD_DIR ++ "/" ++ filename
      { success := true, filepath := file_path, filename := filename
        saved := [file_path] }

/-- The JSON body of an `/api/clone-voice` request (fields read through
`data.get`). -/
structure CloneBody where
  filepath : Option String := none
  speaker : Option String := none
  api_key : Option String := none
  deriving DecidableEq, Repr

/-- The JSON response of `/api/clone-voice`, plus the `prepare_voices`
call made (arguments including the API key used), for instrumentation. -/
structure CloneResult where
  success : Bool
  error : String := ""
  voice_id : String := ""
  upload_trace_id : Option String := none
  clone_trace_id : Option String := none
  prepareVoicesArgs : Option (SpeakerConfig × SpeakerConfig × String) := none
  deriving DecidableEq, Repr

/-- Association-list lookup, as Python `dict.get(k)` over the
`trace_ids` dict. -/
def dictGet (l : List (String × String)) (k : String) : Option String :=
  (l.find? (fun kv => kv.1 = k)).map (fun kv => kv.2)

/-- The `/api/clone-voice` handler `clone_voice` (lines 273-321):
reject an empty body or a missing file; take the caller's `api_key`
when it is a nonempty string, otherwise fall back to the configured
`MINIMAX_API_KEY` (`cfgKey`); call `voice_manager.prepare_voices` with a
custom config in the slot named by `speaker` and a default config in
the other; return the voice id and trace ids.  `ex` models
`os.path.exists`. -/
def clone_voice (cfgKey : String) (ex : String → Bool) (o : Oracles)
    (body : Option CloneBody) : CloneResult :=
  match body with
  | none => { success := false, error := "请求数据为空" }
  | some data =>
    match data.filepath with
    | none => { success := false, error := "音频文件不存在" }
    | some fp =>
      if fp = "" ∨ ¬ ex fp then { success := false, error := "音频文件不存在" }
      else
        let speaker := data.speaker.getD "unknown"
        let user_api_key :=
          if data.api_key.getD "" = "" then cfgKey else data.api_key.getD ""
        let voice_config : SpeakerConfig :=
          { type := "custom", audio_file := some fp }
        let defaultCfg : SpeakerConfig :=
          { type := "default", voice_name := some "mini" }
        let args :=
          if speaker = "speaker1" then (voice_config, defaultCfg)
          else (defaultCfg, voice_config)
        match o.prepare_voices args.1 args.2 user_api_key with
        | .error e =>
          { success := false, error := e
            prepareVoicesArgs := some (args.1, args.2, user_api_key) }
        | .ok res =>
          if ¬ res.success then
            { success := false
              error := if res.error = "" then "克隆失败" else res.error
              prepareVoicesArgs := some (args.1, args.2, user_api_key) }
          else
            { success := true
              voice_id := if speaker = "speaker1" then res.speaker1 else res.speaker2
              upload_trace_id := dictGet res.trace_ids (speaker ++ "_upload")
              clone_trace_id := dictGet res.trace_ids (speaker ++ "_clone")
              prepareVoicesArgs := some (args.1, args.2, user_api_key) }

/-- An `/api/parse-content` request: the JSON fields `text_input` and
`url_input` (empty when the body is not JSON) and the `file` slot. -/
structure ParseContentRequest where
  text_input : String := ""
  url_input : String := ""
  file : Option String := none
  deriving DecidableEq, Repr

/-- The JSON response of `/api/parse-content`, plus instrumentation:
whether `merge_contents` was called and with which arguments. -/
structure ParseContentResult where
  success : Bool
  error : String := ""
  content : String := ""
  message : String := ""
  mergeArgs : Option (String × String × String) := none
  deriving DecidableEq, Repr

/-- The `/api/parse-content` handler `parse_content` (lines 324-391):
parse the URL when supplied and RETURN an error response on failure
(unlike the SSE generator, which continues); then save and parse the
PDF, returning an error on failure; then merge and return the content.
`now` is the `int(time.time())` used in the temporary PDF filename. -/
def parse_content (sf : String → String) (now : Nat) (o : Oracles)
    (r : ParseContentRequest) : ParseContentResult :=
  let urlStep : Except ParseContentResult String :=
    if r.url_input ≠ "" then
      match o.parse_url r.url_input with
      | .error e => .error { success := false, error := "服务器错误: " ++ e }
      | .ok ur =>
        if ur.success then .ok ur.content
        else .error { success := false
                      error := if ur.error = "" then "网址解析失败" else ur.error }
    else .ok ""
  match urlStep with
  | .error resp => resp
  | .ok url_content =>
    let pdfStep : Except ParseContentResult String :=
      match r.file with
      | some fn =>
        if fn = "" then .ok ""
        else
          let pdf_path := UPLOAD_DIR ++ "/" ++ toString now ++ "_" ++ sf fn
          match o.parse_pdf pdf_path with
          | .error e => .error { success := false, error := "服务器错误: " ++ e }
          | .ok pr =>
            if pr.success then .ok pr.content
            else .error { success := false
                          error := if pr.error = "" then "PDF解析失败" else pr.error }
      | none => .ok ""
    match pdfStep with
    | .error resp => resp
    | .ok pdf_content =>
      match o.merge_contents r.text_input url_content pdf_content with
      | .error e =>
        { success := false, error := "服务器错误: " ++ e
          mergeArgs := some (r.text_input, url_content, pdf_content) }
      | .ok m =>
        if m = "" then
          { success := false, error := "请至少提供一种输入内容（文本/网址/PDF）"
            mergeArgs := some (r.text_input, url_content, pdf_content) }
        else
          { success := true, content := m
            message := "内容解析完成，共 " ++ toString m.length ++ " 字符"
            mergeArgs := some (r.text_input, url_content, pdf_content) }


/-! ## Concrete inputs used by witnesses and counterexamples -/

/-- A benign oracle: every external call succeeds and the podcast
generation stream yields nothing. -/
def oracle0 : Oracles :=
  { parse_pdf := fun _ => .ok { success := true }
    parse_url := fun _ => .ok { success := true }
    merge_contents := fun a b c => .ok (merge_contents a b c)
    prepare_voices := fun _ _ _ =>
      .ok { success := true, speaker1 := "v1", speaker2 := "v2" }
    gen_stream := fun _ _ _ _ _ => ([], none) }

/-- An oracle whose URL parsing reports failure (success flag false). -/
def oracleUrlFail : Oracles :=
  { oracle0 with parse_url := fun _ => .ok { success := false, error := "解析失败" } }

/-- An oracle whose URL parsing raises an exception. -/
def oracleUrlRaise : Oracles :=
  { oracle0 with parse_url := fun _ => .error "boom" }

/-- A request with a `.exe` PDF upload, an extensionless custom Speaker1
audio and an accepted `.mp3` custom Speaker2 audio. -/
def rBadUploads : GenRequest :=
  { api_key := "k"
    pdf_file := some "evil.exe"
    speaker1_type := "custom"
    speaker1_audio := some "noext"
    speaker2_type := "custom"
    speaker2_audio := some "song.mp3" }

/-- A request with direct text and a URL. -/
def rTextUrl : GenRequest :=
  { api_key := "k", text_input := "hello", url := "http://x" }

/-- A request with default-voice speakers that nevertheless carries
audio files in both speaker slots. -/
def rDefaultAudio : GenRequest :=
  { api_key := "k"
    text_input := "hi"
    speaker1_audio := some "voice.mp3"
    speaker2_audio := some "voice2.mp3" }

/-- A benign oracle whose merge always produces nonempty content. -/
def oracleAll : Oracles :=
  { oracle0 with merge_contents := fun _ _ _ => .ok "content" }

/-- An oracle whose URL parsing reports failure while PDF parsing
succeeds with text. -/
def oracleUrlFailPdf : Oracles :=
  { oracleUrlFail with
    parse_pdf := fun _ => .ok { success := true, content := "pdftext" } }

/-- A request with direct text, a URL, and a PDF upload. -/
def rPdfUrl : GenRequest :=
  { api_key := "k"
    text_input := "hello"
    url := "http://x"
    pdf_file := some "doc.pdf" }

/-- A `/api/clone-voice` body that supplies no API key. -/
def cloneNoKey : CloneBody :=
  { filepath := some "f.wav", speaker := some "speaker1" }

/-- A `/api/parse-content` request whose URL will fail to parse but
which also carries direct text. -/
def pcUrlFail : ParseContentRequest :=
  { text_input := "hello", url_input := "http://x" }

/-- The event types the generator emits itself, or an event forwarded
verbatim from the podcast generation stream. -/
def EventOk (o : Oracles) (ev : Event) : Prop :=
  ev.type = "progress" ∨ ev.type = "log" ∨ ev.type = "error" ∨
  ev.type = "trace_id" ∨ ev.type = "url_parse_warning" ∨
  ∃ a b c d e, ev ∈ (o.gen_stream a b c d e).1

/-- Sanity of a recorded `prepare_voices` call: authenticated with the
request's API key, and a `'default'` speaker contributes a config holding
exactly the voice name (no audio file). -/
def PrepOk (x : Extracted) (t : SpeakerConfig × SpeakerConfig × String) : Prop :=
  t.2.2 = x.user_api_key ∧
  (x.speaker1_type = "default" →
    t.1 = { type := "default", voice_name := some x.speaker1_voice_name }) ∧
  (x.speaker2_type = "default" →
    t.2.1 = { type := "default", voice_name := some x.speaker2_voice_name })

/-- Sanity of a recorded `generate_podcast_stream` call: made with the
request's session id and API key. -/
def GenArgsOk (x : Extracted)
    (u : String × String × String × String × String) : Prop :=
  u.2.2.2.1 = x.session_id ∧ u.2.2.2.2 = x.user_api_key

/-! ## Theorems -/

/-- C5: For every `/api/generate_podcast` request, an uploaded file is
saved to the upload directory only if `allowed_file` accepts it — the
filename contains a dot and the substring after the last dot, lowercased,
is in the allowed set ("pdf" for the PDF slot; "wav"/"mp3"/"flac"/"m4a"/
"ogg" for the speaker audio slots); a file failing this check is not
saved and its slot is treated as absent; and the files saved are exactly
the accepted slots. -/
theorem C5_upload_saved_iff_allowed (sf : String → String) (sid : String)
    (r : GenRequest) :
    (∀ p, (extract sf sid r).pdf_path = some p →
      ∃ fn, r.pdf_file = some fn ∧ allowed_file fn ALLOWED_PDF_EXTENSIONS = true) ∧
    (∀ p, (extract sf sid r).speaker1_audio_path = some p →
      ∃ fn, r.speaker1_audio = some fn ∧
        allowed_file fn ALLOWED_AUDIO_EXTENSIONS = true) ∧
    (∀ p, (extract sf sid r).speaker2_audio_path = some p →
      ∃ fn, r.speaker2_audio = some fn ∧
        allowed_file fn ALLOWED_AUDIO_EXTENSIONS = true) ∧
    (∀ fn, r.pdf_file = some fn → allowed_file fn ALLOWED_PDF_EXTENSIONS = false →
      (extract sf sid r).pdf_path = none ∧ (extract sf sid r).pdf_file = none) ∧
    (∀ fn, r.speaker1_audio = some fn →
      allowed_file fn ALLOWED_AUDIO_EXTENSIONS = false →
      (extract sf sid r).speaker1_audio_path = none) ∧
    (∀ fn, r.speaker2_audio = some fn →
      allowed_file fn ALLOWED_AUDIO_EXTENSIONS = false →
      (extract sf sid r).speaker2_audio_path = none) ∧
    (extract sf sid r).saved = (extract sf sid r).pdf_path.toList
      ++ (extract sf sid r).speaker1_audio_path.toList
      ++ (extract sf sid r).speaker2_audio_path.toList := by
  refine ⟨?_, ?_, ?_, ?_, ?_, ?_, rfl⟩
  · intro p hp
    cases hf : r.pdf_file with
    | none => simp [extract, pdfPath, pdfName, hf] at hp
    | some fn =>
      refine ⟨fn, rfl, ?_⟩
      by_cases hna : allowed_file fn ALLOWED_PDF_EXTENSIONS = true
      · exact hna
      · simp [extract, pdfPath, pdfName, hf, hna] at hp
  · intro p hp
    by_cases ht : r.speaker1_type = "custom"
    · cases hf : r.speaker1_audio with
      | none => simp [extract, audioPath, ht, hf] at hp
      | some fn =>
        refine ⟨fn, rfl, ?_⟩
        by_cases hna : allowed_file fn ALLOWED_AUDIO_EXTENSIONS = true
        · exact hna
        · simp [extract, audioPath, ht, hf, hna] at hp
    · simp [extract, audioPath, ht] at hp
  · intro p hp
    by_cases ht : r.speaker2_type = "custom"
    · cases hf : r.speaker2_audio with
      | none => simp [extract, audioPath, ht, hf] at hp
      | some fn =>
        refine ⟨fn, rfl, ?_⟩
        by_cases hna : allowed_file fn ALLOWED_AUDIO_EXTENSIONS = true
        · exact hna
        · simp [extract, audioPath, ht, hf, hna] at hp
    · simp [extract, audioPath, ht] at hp
  · intro fn hf hna
    constructor <;> simp [extract, pdfPath, pdfName, hf, hna]
  · intro fn hf hna
    by_cases ht : r.speaker1_type = "custom" <;>
      simp [extract, audioPath, ht, hf, hna]
  · intro fn hf hna
    by_cases ht : r.speaker2_type = "custom" <;>
      simp [extract, audioPath, ht, hf, hna]

/-- C5 witness: on `rBadUploads`, the `.exe` PDF and the extensionless
Speaker1 audio are not saved; only the accepted `.mp3` Speaker2 file is. -/
theorem C5_witness :
    (extract id "s" rBadUploads).pdf_path = none ∧
    (extract id "s" rBadUploads).speaker1_audio_path = none ∧
    (extract id "s" rBadUploads).saved = ["uploads/s_speaker2_song.mp3"] := by
  have h := C5_upload_saved_iff_allowed id "s" rBadUploads
  refine ⟨(h.2.2.2.1 "evil.exe" rfl (by decide)).1,
    h.2.2.2.2.1 "noext" rfl (by decide), ?_⟩
  rw [h.2.2.2.2.2.2, (h.2.2.2.1 "evil.exe" rfl (by decide)).1,
    h.2.2.2.2.1 "noext" rfl (by decide)]
  decide

/-- C9: `/api/upload_audio` performs no file-extension validation: for
every request whose `audio` part is present and non-empty, whatever the
original filename, the file is saved under the server-constructed name
`{session_id}_{speaker}_{timestamp}.wav` and the response reports
success with that path. -/
theorem C9_upload_audio_unvalidated (fresh : String) (now : Nat)
    (r : UploadRequest) (fn : String) (h1 : r.audio = some fn)
    (h2 : fn ≠ "") :
    upload_audio fresh now r =
      { success := true
        filepath := UPLOAD_DIR ++ "/" ++ (r.session_id.getD fresh ++ "_"
          ++ r.speaker.getD "unknown" ++ "_" ++ toString now ++ ".wav")
        filename := r.session_id.getD fresh ++ "_" ++ r.speaker.getD "unknown"
          ++ "_" ++ toString now ++ ".wav"
        saved := [UPLOAD_DIR ++ "/" ++ (r.session_id.getD fresh ++ "_"
          ++ r.speaker.getD "unknown" ++ "_" ++ toString now ++ ".wav")] } := by
  simp [upload_audio, h1, h2]

/-- C9 witness: an `.exe`-named upload is accepted and saved as
`sid_speaker1_7.wav`. -/
theorem C9_witness :
    upload_audio "f" 7
      { audio := some "clip.exe"
        session_id := some "sid"
        speaker := some "speaker1" } =
      { success := true
        filepath := "uploads/sid_speaker1_7.wav"
        filename := "sid_speaker1_7.wav"
        saved := ["uploads/sid_speaker1_7.wav"] } := by
  have h := C9_upload_audio_unvalidated "f" 7
    { audio := some "clip.exe"
      session_id := some "sid"
      speaker := some "speaker1" } "clip.exe" rfl (by decide)
  rw [h]
  decide

/-- `stepGen` records the podcast-generation call it makes. -/
theorem stepGen_genArgs (o : Oracles) (x : Extracted) (acc : List Event)
    (m v1 v2 : String) :
    (stepGen o x acc m v1 v2).genStreamArgs =
      some (m, v1, v2, x.session_id, x.user_api_key) := by
  simp only [stepGen]
  split <;> rfl

/-- `stepGen` makes no `prepare_voices` call. -/
theorem stepGen_prepArgs (o : Oracles) (x : Extracted) (acc : List Event)
    (m v1 v2 : String) :
    (stepGen o x acc m v1 v2).prepareVoicesArgs = none := by
  simp only [stepGen]
  split <;> rfl

/-- `stepPrepare` records exactly the `prepare_voices` call it makes,
authenticated with the request's API key. -/
theorem stepPrepare_prepArgs (o : Oracles) (x : Extracted) (acc : List Event)
    (m : String) (c1 c2 : SpeakerConfig) :
    (stepPrepare o x acc m c1 c2).prepareVoicesArgs =
      some (c1, c2, x.user_api_key) := by
  simp only [stepPrepare]
  split
  · rfl
  · split <;> rfl

/-- Any generation call recorded by `stepPrepare` used the session id
and API key. -/
theorem stepPrepare_genArgs (o : Oracles) (x : Extracted) (acc : List Event)
    (m : String) (c1 c2 : SpeakerConfig)
    (u : String × String × String × String × String)
    (h : (stepPrepare o x acc m c1 c2).genStreamArgs = some u) :
    GenArgsOk x u := by
  simp only [stepPrepare] at h
  split at h
  · simp at h
  · split at h
    · rw [show ∀ r : GenResult, ∀ p,
        ({ r with prepareVoicesArgs := p } : GenResult).genStreamArgs
          = r.genStreamArgs from fun _ _ => rfl] at h
      rw [stepGen_genArgs] at h
      cases h
      exact ⟨rfl, rfl⟩
    · simp at h

/-- Any `prepare_voices` call recorded by `stepVoices2` keeps the
Speaker1 config it was given, uses the request's API key, and when
Speaker2 is `'default'` passes it a voice-name-only config. -/
theorem stepVoices2_prepArgs (o : Oracles) (x : Extracted) (acc : List Event)
    (m : String) (c1 : SpeakerConfig)
    (t : SpeakerConfig × SpeakerConfig × String)
    (h : (stepVoices2 o x acc m c1).prepareVoicesArgs = some t) :
    t.1 = c1 ∧ t.2.2 = x.user_api_key ∧
    (x.speaker2_type = "default" →
      t.2.1 = { type := "default", voice_name := some x.speaker2_voice_name }) := by
  simp only [stepVoices2] at h
  split at h
  · rw [stepPrepare_prepArgs] at h
    cases h
    exact ⟨rfl, rfl, fun _ => rfl⟩
  · rename_i h2d
    split at h
    · split at h
      · rw [stepPrepare_prepArgs] at h
        cases h
        exact ⟨rfl, rfl, fun hd => absurd hd h2d⟩
      · simp at h
    · rename_i h2c
      rw [stepPrepare_prepArgs] at h
      cases h
      exact ⟨rfl, rfl, fun hd => absurd hd h2d⟩

/-- Any generation call recorded by `stepVoices2` used the session id
and API key. -/
theorem stepVoices2_genArgs (o : Oracles) (x : Extracted) (acc : List Event)
    (m : String) (c1 : SpeakerConfig)
    (u : String × String × String × String × String)
    (h : (stepVoices2 o x acc m c1).genStreamArgs = some u) :
    GenArgsOk x u := by
  simp only [stepVoices2] at h
  split at h
  · exact stepPrepare_genArgs o x acc m c1 _ u h
  · split at h
    · split at h
      · exact stepPrepare_genArgs o x _ m c1 _ u h
      · simp at h
    · exact stepPrepare_genArgs o x acc m c1 _ u h

/-- Any `prepare_voices` call recorded by `stepVoices` satisfies
`PrepOk`. -/
theorem stepVoices_prepArgs (o : Oracles) (x : Extracted) (acc : List Event)
    (m : String) (t : SpeakerConfig × SpeakerConfig × String)
    (h : (stepVoices o x acc m).prepareVoicesArgs = some t) :
    PrepOk x t := by
  simp only [stepVoices] at h
  split at h
  · rename_i h1d
    obtain ⟨e1, e3, e2⟩ := stepVoices2_prepArgs o x _ m _ t h
    exact ⟨e3, fun _ => e1, e2⟩
  · rename_i h1d
    split at h
    · split at h
      · obtain ⟨e1, e3, e2⟩ := stepVoices2_prepArgs o x _ m _ t h
        exact ⟨e3, fun hd => absurd hd h1d, e2⟩
      · simp at h
    · obtain ⟨e1, e3, e2⟩ := stepVoices2_prepArgs o x _ m _ t h
      exact ⟨e3, fun hd => absurd hd h1d, e2⟩

/-- Any generation call recorded by `stepVoices` used the session id
and API key. -/
theorem stepVoices_genArgs (o : Oracles) (x : Extracted) (acc : List Event)
    (m : String) (u : String × String × String × String × String)
    (h : (stepVoices o x acc m).genStreamArgs = some u) :
    GenArgsOk x u := by
  simp only [stepVoices] at h
  split at h
  · exact stepVoices2_genArgs o x _ m _ u h
  · split at h
    · split at h
      · exact stepVoices2_genArgs o x _ m _ u h
      · simp at h
    · exact stepVoices2_genArgs o x _ m _ u h

/-- The `prepare_voices` call recorded by `stepMerge` comes from
`stepVoices`. -/
theorem stepMerge_prepArgs (o : Oracles) (x : Extracted) (acc : List Event)
    (p u : String) (t : SpeakerConfig × SpeakerConfig × String)
    (h : (stepMerge o x acc p u).prepareVoicesArgs = some t) :
    PrepOk x t := by
  simp only [stepMerge] at h
  split at h
  · simp at h
  · split at h
    · simp at h
    · exact stepVoices_prepArgs o x _ _ t h

/-- The generation call recorded by `stepMerge` comes from
`stepVoices`. -/
theorem stepMerge_genArgs (o : Oracles) (x : Extracted) (acc : List Event)
    (p u : String) (w : String × String × String × String × String)
    (h : (stepMerge o x acc p u).genStreamArgs = some w) :
    GenArgsOk x w := by
  simp only [stepMerge] at h
  split at h
  · simp at h
  · split at h
    · simp at h
    · exact stepVoices_genArgs o x _ _ w h

/-- The `prepare_voices` call recorded by `stepUrl` comes from
`stepMerge`. -/
theorem stepUrl_prepArgs (o : Oracles) (x : Extracted) (acc : List Event)
    (p : String) (t : SpeakerConfig × SpeakerConfig × String)
    (h : (stepUrl o x acc p).prepareVoicesArgs = some t) :
    PrepOk x t := by
  simp only [stepUrl] at h
  split at h
  · split at h
    · simp at h
    · split at h
      · exact stepMerge_prepArgs o x _ _ _ t h
      · exact stepMerge_prepArgs o x _ _ _ t h
  · exact stepMerge_prepArgs o x _ _ _ t h

/-- The generation call recorded by `stepUrl` comes from `stepMerge`. -/
theorem stepUrl_genArgs (o : Oracles) (x : Extracted) (acc : List Event)
    (p : String) (w : String × String × String × String × String)
    (h : (stepUrl o x acc p).genStreamArgs = some w) :
    GenArgsOk x w := by
  simp only [stepUrl] at h
  split at h
  · split at h
    · simp at h
    · split at h
      · exact stepMerge_genArgs o x _ _ _ w h
      · exact stepMerge_genArgs o x _ _ _ w h
  · exact stepMerge_genArgs o x _ _ _ w h

/-- Any `prepare_voices` call recorded by the generator satisfies
`PrepOk`: caller key, and voice-name-only configs for default speakers. -/
theorem generate_prepArgs (o : Oracles) (x : Extracted)
    (t : SpeakerConfig × SpeakerConfig × String)
    (h : (generate o x).prepareVoicesArgs = some t) :
    PrepOk x t := by
  simp only [generate] at h
  split at h
  · split at h
    · simp at h
    · split at h
      · exact stepUrl_prepArgs o x _ _ t h
      · simp at h
  · exact stepUrl_prepArgs o x _ _ t h

/-- Any generation call recorded by the generator used the session id
and API key. -/
theorem generate_genArgs (o : Oracles) (x : Extracted)
    (w : String × String × String × String × String)
    (h : (generate o x).genStreamArgs = some w) :
    GenArgsOk x w := by
  simp only [generate] at h
  split at h
  · split at h
    · simp at h
    · split at h
      · exact stepUrl_genArgs o x _ _ w h
      · simp at h
  · exact stepUrl_genArgs o x _ _ w h

/-- Evaluating the spec-modelled merge on three empty sources gives the
"no available content" sentinel. -/
theorem merge_contents_empty : merge_contents "" "" "" = "没有可用的内容" := by
  decide

/-- When Speaker2 is custom with no saved audio, `stepVoices2` yields the
Speaker2 error event and stops, calling nothing. -/
theorem stepVoices2_abort (o : Oracles) (x : Extracted) (acc : List Event)
    (m : String) (c1 : SpeakerConfig) (h2 : x.speaker2_type = "custom")
    (h2p : x.speaker2_audio_path = none) :
    stepVoices2 o x acc m c1 =
      { events := acc ++ [errEvent "Speaker2 选择自定义音色但未上传音频文件"] } := by
  simp [stepVoices2, h2, h2p]


/-- When either speaker is custom with no saved audio, `stepVoices`
terminates with an error event as its last event and records no
`prepare_voices` or generation call. -/
theorem stepVoices_abort (o : Oracles) (x : Extracted) (acc : List Event)
    (m : String)
    (h : (x.speaker1_type = "custom" ∧ x.speaker1_audio_path = none) ∨
      (x.speaker2_type = "custom" ∧ x.speaker2_audio_path = none)) :
    (stepVoices o x acc m).prepareVoicesArgs = none ∧
    (stepVoices o x acc m).genStreamArgs = none ∧
    ∃ ev, (stepVoices o x acc m).events.getLast? = some ev ∧
      ev.type = "error" := by
  rcases h with ⟨h1, h1p⟩ | ⟨h2, h2p⟩
  · have he : stepVoices o x acc m =
        { events := acc ++ [progressEvent "preparing_voices" "正在准备音色...",
            errEvent "Speaker1 选择自定义音色但未上传音频文件"] } := by
      simp [stepVoices, h1, h1p]
    rw [he]
    exact ⟨rfl, rfl, errEvent "Speaker1 选择自定义音色但未上传音频文件", by simp, rfl⟩
  · simp only [stepVoices]
    split
    · rw [stepVoices2_abort o x _ m _ h2 h2p]
      exact ⟨rfl, rfl, errEvent "Speaker2 选择自定义音色但未上传音频文件", by simp, rfl⟩
    · split
      · split
        · rw [stepVoices2_abort o x _ m _ h2 h2p]
          exact ⟨rfl, rfl, errEvent "Speaker2 选择自定义音色但未上传音频文件", by simp, rfl⟩
        · exact ⟨rfl, rfl, errEvent "Speaker1 选择自定义音色但未上传音频文件", by simp, rfl⟩
      · rw [stepVoices2_abort o x _ m _ h2 h2p]
        exact ⟨rfl, rfl, errEvent "Speaker2 选择自定义音色但未上传音频文件", by simp, rfl⟩

/-- The abort property lifts through `stepMerge`. -/
theorem stepMerge_abort (o : Oracles) (x : Extracted) (acc : List Event)
    (p u : String)
    (h : (x.speaker1_type = "custom" ∧ x.speaker1_audio_path = none) ∨
      (x.speaker2_type = "custom" ∧ x.speaker2_audio_path = none)) :
    (stepMerge o x acc p u).prepareVoicesArgs = none ∧
    (stepMerge o x acc p u).genStreamArgs = none ∧
    ∃ ev, (stepMerge o x acc p u).events.getLast? = some ev ∧
      ev.type = "error" := by
  simp only [stepMerge]
  split
  · rename_i e _
    exact ⟨rfl, rfl, excEvent e, by simp, rfl⟩
  · split
    · exact ⟨rfl, rfl, errEvent "请至少提供一种输入内容（文本/网址/PDF）", by simp, rfl⟩
    · obtain ⟨e1, e2, ev, hev, het⟩ := stepVoices_abort o x _ _ h
      exact ⟨e1, e2, ev, hev, het⟩

/-- The abort property lifts through `stepUrl`. -/
theorem stepUrl_abort (o : Oracles) (x : Extracted) (acc : List Event)
    (p : String)
    (h : (x.speaker1_type = "custom" ∧ x.speaker1_audio_path = none) ∨
      (x.speaker2_type = "custom" ∧ x.speaker2_audio_path = none)) :
    (stepUrl o x acc p).prepareVoicesArgs = none ∧
    (stepUrl o x acc p).genStreamArgs = none ∧
    ∃ ev, (stepUrl o x acc p).events.getLast? = some ev ∧
      ev.type = "error" := by
  simp only [stepUrl]
  split
  · split
    · rename_i e heq
      exact ⟨rfl, rfl, excEvent e, by simp, rfl⟩
    · split
      · exact stepMerge_abort o x _ _ _ h
      · exact stepMerge_abort o x _ _ _ h
  · exact stepMerge_abort o x _ _ _ h

/-- The abort property lifts through the whole generator: with a custom
speaker lacking audio, the stream ends in an error event and neither
voice preparation nor podcast generation is invoked. -/
theorem generate_abort (o : Oracles) (x : Extracted)
    (h : (x.speaker1_type = "custom" ∧ x.speaker1_audio_path = none) ∨
      (x.speaker2_type = "custom" ∧ x.speaker2_audio_path = none)) :
    (generate o x).prepareVoicesArgs = none ∧
    (generate o x).genStreamArgs = none ∧
    ∃ ev, (generate o x).events.getLast? = some ev ∧ ev.type = "error" := by
  simp only [generate]
  split
  · split
    · rename_i e heq
      exact ⟨rfl, rfl, excEvent e, by simp, rfl⟩
    · split
      · exact stepUrl_abort o x _ _ h
      · rename_i pr heq hs
        exact ⟨rfl, rfl, errEvent pr.error, by simp, rfl⟩
  · exact stepUrl_abort o x _ _ h

/-- When the direct text is empty and the merge is called with all
three sources empty (with the modelled merge), `stepMerge` stops at the
"no input" error before any external voice or generation call. -/
theorem stepMerge_empty (o : Oracles) (x : Extracted) (acc : List Event)
    (ht : x.text_input = "")
    (hm : o.merge_contents "" "" "" = Except.ok (merge_contents "" "" "")) :
    (stepMerge o x acc "" "").prepareVoicesArgs = none ∧
    (stepMerge o x acc "" "").genStreamArgs = none ∧
    ∃ ev, (stepMerge o x acc "" "").events.getLast? = some ev ∧
      ev.type = "error" := by
  rw [merge_contents_empty] at hm
  have he : stepMerge o x acc "" "" =
      { events := acc ++ [errEvent "请至少提供一种输入内容（文本/网址/PDF）"]
        mergeArgs := some ("", "", "") } := by
    simp [stepMerge, ht, hm]
  rw [he]
  exact ⟨rfl, rfl, errEvent "请至少提供一种输入内容（文本/网址/PDF）", by simp, rfl⟩

/-- When the direct text is empty and the URL is absent, fails to parse,
or parses to empty content, `stepUrl` run with empty PDF content ends in
an error event before any external voice or generation call. -/
theorem stepUrl_empty (o : Oracles) (x : Extracted) (acc : List Event)
    (ht : x.text_input = "")
    (hu : x.url_input ≠ "" → ∀ ur, o.parse_url x.url_input = Except.ok ur →
      ur.content = "" ∨ ur.success = false)
    (hm : o.merge_contents "" "" "" = Except.ok (merge_contents "" "" "")) :
    (stepUrl o x acc "").prepareVoicesArgs = none ∧
    (stepUrl o x acc "").genStreamArgs = none ∧
    ∃ ev, (stepUrl o x acc "").events.getLast? = some ev ∧
      ev.type = "error" := by
  simp only [stepUrl]
  split
  · rename_i hne
    split
    · rename_i e heq
      exact ⟨rfl, rfl, excEvent e, by simp, rfl⟩
    · rename_i ur heq
      split
      · rename_i hs
        have hc : ur.content = "" := by
          rcases hu hne ur heq with h | h
          · exact h
          · rw [hs] at h
            cases h
        rw [hc]
        exact stepMerge_empty o x _ ht hm
      · exact stepMerge_empty o x _ ht hm
  · exact stepMerge_empty o x acc ht hm

/-- With all three content sources empty after parsing — empty direct
text; URL absent, failing, or parsed to empty text; PDF absent or parsed
to empty text — the generator stops at an error event before any
external voice or generation call. -/
theorem generate_allEmpty (o : Oracles) (x : Extracted)
    (ht : x.text_input = "")
    (hu : x.url_input ≠ "" → ∀ ur, o.parse_url x.url_input = Except.ok ur →
      ur.content = "" ∨ ur.success = false)
    (hpdfE : ∀ p, x.pdf_path = some p → ∀ pr, o.parse_pdf p = Except.ok pr →
      pr.success = true → pr.content = "")
    (hm : o.merge_contents "" "" "" = Except.ok (merge_contents "" "" "")) :
    (generate o x).prepareVoicesArgs = none ∧
    (generate o x).genStreamArgs = none ∧
    ∃ ev, (generate o x).events.getLast? = some ev ∧ ev.type = "error" := by
  simp only [generate]
  split
  · rename_i p hp
    split
    · rename_i e heq
      exact ⟨rfl, rfl, excEvent e, by simp, rfl⟩
    · rename_i pr heq
      split
      · rename_i hs
        have hc : pr.content = "" := hpdfE p hp pr heq hs
        rw [hc]
        exact stepUrl_empty o x _ ht hu hm
      · exact ⟨rfl, rfl, errEvent pr.error, by simp, rfl⟩
  · exact stepUrl_empty o x _ ht hu hm

/-- C1: For every `/api/generate_podcast` request with a missing required
input — no API key after stripping, or all three content sources empty
after parsing (empty direct text; URL absent, failing to parse, or
parsed to empty text; PDF absent or parsed to empty text; with the
spec-modelled merge), or a speaker of type `\'custom\'` without a saved
allowed audio file — the SSE stream\'s last event has type `\'error\'`
(and the stream is a finite list, so it terminates), and neither voice
preparation nor podcast generation is invoked. -/
theorem C1_missing_input_aborts (sf : String → String) (sid : String)
    (o : Oracles) (r : GenRequest)
    (h : pyStrip r.api_key = "" ∨
      (pyStrip r.text_input = "" ∧
        ((extract sf sid r).url_input ≠ "" →
          ∀ ur, o.parse_url (extract sf sid r).url_input = Except.ok ur →
            ur.content = "" ∨ ur.success = false) ∧
        (∀ p, (extract sf sid r).pdf_path = some p →
          ∀ pr, o.parse_pdf p = Except.ok pr → pr.success = true →
            pr.content = "") ∧
        o.merge_contents "" "" "" = Except.ok (merge_contents "" "" "")) ∨
      (r.speaker1_type = "custom" ∧
        (extract sf sid r).speaker1_audio_path = none) ∨
      (r.speaker2_type = "custom" ∧
        (extract sf sid r).speaker2_audio_path = none)) :
    (∃ ev, (generate_podcast sf sid o r).events.getLast? = some ev ∧
      ev.type = "error") ∧
    ∀ g, (generate_podcast sf sid o r).gen = some g →
      g.prepareVoicesArgs = none ∧ g.genStreamArgs = none := by
  by_cases hk : pyStrip r.api_key = ""
  · rw [show generate_podcast sf sid o r
          = { events := [errEvent "未提供 API Key"] } by
        simp [generate_podcast, hk]]
    exact ⟨⟨errEvent "未提供 API Key", rfl, rfl⟩, fun g hg => by cases hg⟩
  · have hr : generate_podcast sf sid o r =
        { events := (generate o (extract sf sid r)).events
          saved := (extract sf sid r).saved
          gen := some (generate o (extract sf sid r)) } := by
      simp [generate_podcast, hk]
    rcases h with h | ⟨ht, hu, hp, hm⟩ | h1 | h2
    · exact absurd h hk
    · obtain ⟨e1, e2, ev, hev, het⟩ := generate_allEmpty o (extract sf sid r)
        ht hu hp hm
      rw [hr]
      exact ⟨⟨ev, hev, het⟩, fun g hg => by cases hg; exact ⟨e1, e2⟩⟩
    · obtain ⟨e1, e2, ev, hev, het⟩ := generate_abort o (extract sf sid r)
        (Or.inl h1)
      rw [hr]
      exact ⟨⟨ev, hev, het⟩, fun g hg => by cases hg; exact ⟨e1, e2⟩⟩
    · obtain ⟨e1, e2, ev, hev, het⟩ := generate_abort o (extract sf sid r)
        (Or.inr h2)
      rw [hr]
      exact ⟨⟨ev, hev, het⟩, fun g hg => by cases hg; exact ⟨e1, e2⟩⟩

/-- C1 witness: the default request (no API key) yields a single error
event and no external calls. -/
theorem C1_witness :
    (∃ ev, (generate_podcast id "s" oracle0 {}).events.getLast? = some ev ∧
      ev.type = "error") ∧
    ∀ g, (generate_podcast id "s" oracle0 {}).gen = some g →
      g.prepareVoicesArgs = none ∧ g.genStreamArgs = none :=
  C1_missing_input_aborts id "s" oracle0 {} (Or.inl (by decide))

/-- A caught exception in `stepGen` surfaces as the final error event. -/
theorem stepGen_exn (o : Oracles) (x : Extracted) (acc : List Event)
    (m v1 v2 : String) :
    ∀ e, (stepGen o x acc m v1 v2).exn = some e →
      (stepGen o x acc m v1 v2).events.getLast? = some (excEvent e) := by
  simp only [stepGen]
  split
  · intro e h
    cases h
  · intro e h
    cases h
    simp

/-- A caught exception in `stepPrepare` surfaces as the final error
event. -/
theorem stepPrepare_exn (o : Oracles) (x : Extracted) (acc : List Event)
    (m : String) (c1 c2 : SpeakerConfig) :
    ∀ e, (stepPrepare o x acc m c1 c2).exn = some e →
      (stepPrepare o x acc m c1 c2).events.getLast? = some (excEvent e) := by
  simp only [stepPrepare]
  split
  · intro e h
    cases h
    simp
  · split
    · exact stepGen_exn o x _ m _ _
    · intro e h
      cases h

/-- A caught exception in `stepVoices2` surfaces as the final error
event. -/
theorem stepVoices2_exn (o : Oracles) (x : Extracted) (acc : List Event)
    (m : String) (c1 : SpeakerConfig) :
    ∀ e, (stepVoices2 o x acc m c1).exn = some e →
      (stepVoices2 o x acc m c1).events.getLast? = some (excEvent e) := by
  simp only [stepVoices2]
  split
  · exact stepPrepare_exn o x _ m _ _
  · split
    · split
      · exact stepPrepare_exn o x _ m _ _
      · intro e h
        cases h
    · exact stepPrepare_exn o x _ m _ _

/-- A caught exception in `stepVoices` surfaces as the final error
event. -/
theorem stepVoices_exn (o : Oracles) (x : Extracted) (acc : List Event)
    (m : String) :
    ∀ e, (stepVoices o x acc m).exn = some e →
      (stepVoices o x acc m).events.getLast? = some (excEvent e) := by
  simp only [stepVoices]
  split
  · exact stepVoices2_exn o x _ m _
  · split
    · split
      · exact stepVoices2_exn o x _ m _
      · intro e h
        cases h
    · exact stepVoices2_exn o x _ m _

/-- A caught exception in `stepMerge` surfaces as the final error
event. -/
theorem stepMerge_exn (o : Oracles) (x : Extracted) (acc : List Event)
    (p u : String) :
    ∀ e, (stepMerge o x acc p u).exn = some e →
      (stepMerge o x acc p u).events.getLast? = some (excEvent e) := by
  simp only [stepMerge]
  split
  · intro e h
    cases h
    simp
  · split
    · intro e h
      cases h
    · exact stepVoices_exn o x _ _

/-- A caught exception in `stepUrl` surfaces as the final error event. -/
theorem stepUrl_exn (o : Oracles) (x : Extracted) (acc : List Event)
    (p : String) :
    ∀ e, (stepUrl o x acc p).exn = some e →
      (stepUrl o x acc p).events.getLast? = some (excEvent e) := by
  simp only [stepUrl]
  split
  · split
    · intro e h
      cases h
      simp
    · split
      · exact stepMerge_exn o x _ _ _
      · exact stepMerge_exn o x _ _ _
  · exact stepMerge_exn o x _ _ _

/-- A caught exception anywhere in the generator surfaces as the final
error event. -/
theorem generate_exn (o : Oracles) (x : Extracted) :
    ∀ e, (generate o x).exn = some e →
      (generate o x).events.getLast? = some (excEvent e) := by
  simp only [generate]
  split
  · split
    · intro e h
      cases h
      simp
    · split
      · exact stepUrl_exn o x _ _
      · intro e h
        cases h
  · exact stepUrl_exn o x _ _

/-- C4: The SSE generator never propagates an exception: whenever an
exception (message `e`) is raised by any external call inside the
generator body — PDF/URL parsing, content merging, voice preparation,
or podcast generation — the generator catches it, its event list ends
with an event of type `'error'` whose message is the handler's
`'播客生成失败: ' + str(e)`, and it terminates normally (its output is a
finite event list). -/
theorem C4_generator_catches_exceptions (o : Oracles) (x : Extracted)
    (e : String) (h : (generate o x).exn = some e) :
    ∃ ev, (generate o x).events.getLast? = some ev ∧
      ev.type = "error" ∧ ev.message = some ("播客生成失败: " ++ e) :=
  ⟨excEvent e, generate_exn o x e h, rfl, rfl⟩

/-- C4 witness: with an oracle whose URL parsing raises `"boom"`, the
stream on `rTextUrl` ends with the catch-all error event. -/
theorem C4_witness :
    (generate oracleUrlRaise (extract id "s" rTextUrl)).exn = some "boom" ∧
    ∃ ev, (generate oracleUrlRaise (extract id "s" rTextUrl)).events.getLast?
        = some ev ∧
      ev.type = "error" ∧ ev.message = some ("播客生成失败: " ++ "boom") :=
  ⟨by decide,
    C4_generator_catches_exceptions oracleUrlRaise (extract id "s" rTextUrl)
      "boom" (by decide)⟩

/-- Mapped log lines are `log` events. -/
theorem logEvent_type (l : List String) (ev : Event)
    (h : ev ∈ List.map logEvent l) : ev.type = "log" := by
  rcases List.mem_map.mp h with ⟨m, _, rfl⟩
  rfl

/-- Mapped trace ids are `trace_id` events. -/
theorem traceEvent_type (l : List (String × String)) (ev : Event)
    (h : ev ∈ List.map (fun kv => traceEvent kv.1 kv.2) l) :
    ev.type = "trace_id" := by
  rcases List.mem_map.mp h with ⟨m, _, rfl⟩
  rfl

/-- Every event of `stepGen` is inherited or classified by `EventOk`. -/
theorem stepGen_types (o : Oracles) (x : Extracted) (acc : List Event)
    (m v1 v2 : String) :
    ∀ ev ∈ (stepGen o x acc m v1 v2).events, ev ∈ acc ∨ EventOk o ev := by
  simp only [stepGen]
  split
  · intro ev hev
    rcases List.mem_append.mp hev with ha | hg
    · exact Or.inl ha
    · exact Or.inr (Or.inr (Or.inr (Or.inr (Or.inr (Or.inr
        ⟨m, v1, v2, x.session_id, x.user_api_key, hg⟩)))))
  · intro ev hev
    rcases List.mem_append.mp hev with hag | he
    · rcases List.mem_append.mp hag with ha | hg
      · exact Or.inl ha
      · exact Or.inr (Or.inr (Or.inr (Or.inr (Or.inr (Or.inr
          ⟨m, v1, v2, x.session_id, x.user_api_key, hg⟩)))))
    · rw [List.mem_singleton.mp he]
      exact Or.inr (Or.inr (Or.inr (Or.inl rfl)))

/-- Every event of `stepPrepare` is inherited or classified. -/
theorem stepPrepare_types (o : Oracles) (x : Extracted) (acc : List Event)
    (m : String) (c1 c2 : SpeakerConfig) :
    ∀ ev ∈ (stepPrepare o x acc m c1 c2).events, ev ∈ acc ∨ EventOk o ev := by
  simp only [stepPrepare]
  split
  · intro ev hev
    rcases List.mem_append.mp hev with ha | he
    · exact Or.inl ha
    · rw [List.mem_singleton.mp he]
      exact Or.inr (Or.inr (Or.inr (Or.inl rfl)))
  · split
    · intro ev hev
      rcases stepGen_types o x _ m _ _ ev hev with hacc | hok
      · rcases List.mem_append.mp hacc with hal | ht
        · rcases List.mem_append.mp hal with ha | hl
          · exact Or.inl ha
          · exact Or.inr (Or.inr (Or.inl (logEvent_type _ ev hl)))
        · exact Or.inr (Or.inr (Or.inr (Or.inr (Or.inl
            (traceEvent_type _ ev ht)))))
      · exact Or.inr hok
    · intro ev hev
      rcases List.mem_append.mp hev with ha | he
      · exact Or.inl ha
      · rw [List.mem_singleton.mp he]
        exact Or.inr (Or.inr (Or.inr (Or.inl rfl)))

/-- Every event of `stepVoices2` is inherited or classified. -/
theorem stepVoices2_types (o : Oracles) (x : Extracted) (acc : List Event)
    (m : String) (c1 : SpeakerConfig) :
    ∀ ev ∈ (stepVoices2 o x acc m c1).events, ev ∈ acc ∨ EventOk o ev := by
  simp only [stepVoices2]
  split
  · exact stepPrepare_types o x acc m _ _
  · split
    · split
      · intro ev hev
        rcases stepPrepare_types o x _ m _ _ ev hev with hacc | hok
        · rcases List.mem_append.mp hacc with ha | hl
          · exact Or.inl ha
          · rw [List.mem_singleton.mp hl]
            exact Or.inr (Or.inr (Or.inl rfl))
        · exact Or.inr hok
      · intro ev hev
        rcases List.mem_append.mp hev with ha | he
        · exact Or.inl ha
        · rw [List.mem_singleton.mp he]
          exact Or.inr (Or.inr (Or.inr (Or.inl rfl)))
    · exact stepPrepare_types o x acc m _ _

/-- Every event of `stepVoices` is inherited or classified. -/
theorem stepVoices_types (o : Oracles) (x : Extracted) (acc : List Event)
    (m : String) :
    ∀ ev ∈ (stepVoices o x acc m).events, ev ∈ acc ∨ EventOk o ev := by
  have hprog : ∀ ev : Event,
      ev ∈ acc ++ [progressEvent "preparing_voices" "正在准备音色..."] →
      ev ∈ acc ∨ EventOk o ev := by
    intro ev hev
    rcases List.mem_append.mp hev with ha | hp
    · exact Or.inl ha
    · rw [List.mem_singleton.mp hp]
      exact Or.inr (Or.inl rfl)
  simp only [stepVoices]
  split
  · intro ev hev
    rcases stepVoices2_types o x _ m _ ev hev with hacc | hok
    · exact hprog ev hacc
    · exact Or.inr hok
  · split
    · split
      · intro ev hev
        rcases stepVoices2_types o x _ m _ ev hev with hacc | hok
        · rcases List.mem_append.mp hacc with hap | hl
          · exact hprog ev hap
          · rw [List.mem_singleton.mp hl]
            exact Or.inr (Or.inr (Or.inl rfl))
        · exact Or.inr hok
      · intro ev hev
        rcases List.mem_append.mp hev with hap | he
        · exact hprog ev hap
        · rw [List.mem_singleton.mp he]
          exact Or.inr (Or.inr (Or.inr (Or.inl rfl)))
    · intro ev hev
      rcases stepVoices2_types o x _ m _ ev hev with hacc | hok
      · exact hprog ev hacc
      · exact Or.inr hok

/-- Every event of `stepMerge` is inherited or classified. -/
theorem stepMerge_types (o : Oracles) (x : Extracted) (acc : List Event)
    (p u : String) :
    ∀ ev ∈ (stepMerge o x acc p u).events, ev ∈ acc ∨ EventOk o ev := by
  simp only [stepMerge]
  split
  · intro ev hev
    rcases List.mem_append.mp hev with ha | he
    · exact Or.inl ha
    · rw [List.mem_singleton.mp he]
      exact Or.inr (Or.inr (Or.inr (Or.inl rfl)))
  · split
    · intro ev hev
      rcases List.mem_append.mp hev with ha | he
      · exact Or.inl ha
      · rw [List.mem_singleton.mp he]
        exact Or.inr (Or.inr (Or.inr (Or.inl rfl)))
    · intro ev hev
      rcases stepVoices_types o x _ _ ev hev with hacc | hok
      · rcases List.mem_append.mp hacc with ha | hl
        · exact Or.inl ha
        · rw [List.mem_singleton.mp hl]
          exact Or.inr (Or.inr (Or.inl rfl))
      · exact Or.inr hok

/-- Every event of `stepUrl` is inherited or classified. -/
theorem stepUrl_types (o : Oracles) (x : Extracted) (acc : List Event)
    (p : String) :
    ∀ ev ∈ (stepUrl o x acc p).events, ev ∈ acc ∨ EventOk o ev := by
  have hlog : ∀ ev : Event,
      ev ∈ acc ++ [logEvent ("开始解析网址: " ++ x.url_input)] →
      ev ∈ acc ∨ EventOk o ev := by
    intro ev hev
    rcases List.mem_append.mp hev with ha | hl
    · exact Or.inl ha
    · rw [List.mem_singleton.mp hl]
      exact Or.inr (Or.inr (Or.inl rfl))
  simp only [stepUrl]
  split
  · split
    · intro ev hev
      rcases List.mem_append.mp hev with hal | he
      · exact hlog ev hal
      · rw [List.mem_singleton.mp he]
        exact Or.inr (Or.inr (Or.inr (Or.inl rfl)))
    · split
      · intro ev hev
        rcases stepMerge_types o x _ _ _ ev hev with hacc | hok
        · rcases List.mem_append.mp hacc with hal | hl
          · exact hlog ev hal
          · exact Or.inr (Or.inr (Or.inl (logEvent_type _ ev hl)))
        · exact Or.inr hok
      · intro ev hev
        rcases stepMerge_types o x _ _ _ ev hev with hacc | hok
        · rcases List.mem_append.mp hacc with halw | hl
          · rcases List.mem_append.mp halw with hal | hw
            · exact hlog ev hal
            · rw [List.mem_singleton.mp hw]
              exact Or.inr (Or.inr (Or.inr (Or.inr (Or.inr (Or.inl rfl)))))
          · exact Or.inr (Or.inr (Or.inl (logEvent_type _ ev hl)))
        · exact Or.inr hok
  · exact stepMerge_types o x acc _ _

/-- Every event the generator emits is classified by `EventOk`. -/
theorem generate_types (o : Oracles) (x : Extracted) :
    ∀ ev ∈ (generate o x).events, EventOk o ev := by
  have hpc : ∀ ev : Event,
      ev ∈ [progressEvent "parsing_content" "正在解析输入内容..."]
        ++ [logEvent ("已上传 PDF: " ++ x.pdf_file.getD "")] →
      EventOk o ev := by
    intro ev hev
    rcases List.mem_append.mp hev with hp | hl
    · rw [List.mem_singleton.mp hp]
      exact Or.inl rfl
    · rw [List.mem_singleton.mp hl]
      exact Or.inr (Or.inl rfl)
  simp only [generate]
  split
  · split
    · intro ev hev
      rcases List.mem_append.mp hev with hal | he
      · exact hpc ev hal
      · rw [List.mem_singleton.mp he]
        exact Or.inr (Or.inr (Or.inl rfl))
    · split
      · intro ev hev
        rcases stepUrl_types o x _ _ ev hev with hacc | hok
        · rcases List.mem_append.mp hacc with hal | hl
          · exact hpc ev hal
          · exact Or.inr (Or.inl (logEvent_type _ ev hl))
        · exact hok
      · intro ev hev
        rcases List.mem_append.mp hev with hal | he
        · exact hpc ev hal
        · rw [List.mem_singleton.mp he]
          exact Or.inr (Or.inr (Or.inl rfl))
  · intro ev hev
    rcases stepUrl_types o x _ _ ev hev with hacc | hok
    · rw [List.mem_singleton.mp hacc]
      exact Or.inl rfl
    · exact hok

/-- C2 counterexample: on a request whose URL parsing fails, the stream
contains an event (the `url_parse_warning` of line 160) whose type is
none of `progress`, `log`, `error`, `trace_id`, refuting the claim as
stated. -/
theorem C2_counterexample :
    ¬ ∀ ev ∈ (generate_podcast id "s" oracleUrlFail rTextUrl).events,
      ev.type ∈ (["progress", "log", "error", "trace_id"] : List String) := by
  decide

/-- C2 amended: every event on the `/api/generate_podcast` SSE stream
either has type `progress`, `log`, `error`, `trace_id`, or
`url_parse_warning`, or is an event forwarded verbatim from the podcast
generation stream. -/
theorem C2_event_types (sf : String → String) (sid : String) (o : Oracles)
    (r : GenRequest) :
    ∀ ev ∈ (generate_podcast sf sid o r).events, EventOk o ev := by
  by_cases hk : pyStrip r.api_key = ""
  · rw [show generate_podcast sf sid o r
        = { events := [errEvent "未提供 API Key"] } by simp [generate_podcast, hk]]
    intro ev hev
    rw [List.mem_singleton.mp hev]
    exact Or.inr (Or.inr (Or.inl rfl))
  · rw [show generate_podcast sf sid o r
        = { events := (generate o (extract sf sid r)).events
            saved := (extract sf sid r).saved
            gen := some (generate o (extract sf sid r)) } by
      simp [generate_podcast, hk]]
    exact generate_types o (extract sf sid r)

/-- C2 witness: the amended classification applied to a concrete event
of a concrete stream. -/
theorem C2_witness :
    EventOk oracleUrlFail (progressEvent "parsing_content" "正在解析输入内容...") :=
  C2_event_types id "s" oracleUrlFail rTextUrl
    (progressEvent "parsing_content" "正在解析输入内容...") (by decide)

/-- C10: When a speaker's type is `'default'`, any audio uploaded for
that speaker is ignored: it is never saved (its slot is absent and
contributes nothing to the saved-file list), and the speaker's
configuration passed to voice preparation holds only the voice name
(its `audio_file` field is absent). -/
theorem C10_default_ignores_audio (sf : String → String) (sid : String)
    (o : Oracles) (r : GenRequest) :
    (r.speaker1_type = "default" →
      (extract sf sid r).speaker1_audio_path = none ∧
      (extract sf sid r).saved = (pdfPath sf sid r).toList
        ++ (audioPath sf sid r.speaker2_type r.speaker2_audio "speaker2").toList ∧
      ∀ t, (generate o (extract sf sid r)).prepareVoicesArgs = some t →
        t.1 = { type := "default", voice_name := some r.speaker1_voice_name }) ∧
    (r.speaker2_type = "default" →
      (extract sf sid r).speaker2_audio_path = none ∧
      (extract sf sid r).saved = (pdfPath sf sid r).toList
        ++ (audioPath sf sid r.speaker1_type r.speaker1_audio "speaker1").toList ∧
      ∀ t, (generate o (extract sf sid r)).prepareVoicesArgs = some t →
        t.2.1 = { type := "default", voice_name := some r.speaker2_voice_name }) := by
  constructor
  · intro h1
    refine ⟨by simp [extract, audioPath, h1], ?_, ?_⟩
    · simp [extract, audioPath, h1]
    · intro t ht
      exact (generate_prepArgs o (extract sf sid r) t ht).2.1 h1
  · intro h2
    refine ⟨by simp [extract, audioPath, h2], ?_, ?_⟩
    · simp [extract, audioPath, h2]
    · intro t ht
      exact (generate_prepArgs o (extract sf sid r) t ht).2.2 h2

/-- C10 witness: on `rDefaultAudio` (both speakers default, both slots
carrying audio) nothing is saved, and the configs passed to voice
preparation are voice-name-only. -/
theorem C10_witness :
    (extract id "s" rDefaultAudio).speaker1_audio_path = none ∧
    (extract id "s" rDefaultAudio).saved = [] ∧
    ∀ t, (generate oracle0 (extract id "s" rDefaultAudio)).prepareVoicesArgs
        = some t →
      t.1 = { type := "default", voice_name := some "mini" } ∧
      t.2.1 = { type := "default", voice_name := some "max" } := by
  have h := C10_default_ignores_audio id "s" oracle0 rDefaultAudio
  obtain ⟨ha1, hs1, hc1⟩ := h.1 rfl
  obtain ⟨ha2, hs2, hc2⟩ := h.2 rfl
  refine ⟨ha1, ?_, fun t ht => ⟨hc1 t ht, hc2 t ht⟩⟩
  rw [hs1]
  decide

/-- C8 counterexample: a `/api/clone-voice` request that supplies no API
key still results in a `prepare_voices` call — authenticated with the
server-configured `MINIMAX_API_KEY` (here `"SERVER_KEY"`), not with a
caller-supplied key, refuting the claim as stated. -/
theorem C8_counterexample :
    cloneNoKey.api_key = none ∧
    (clone_voice "SERVER_KEY" (fun _ => true) oracle0
        (some cloneNoKey)).prepareVoicesArgs =
      some ({ type := "custom", audio_file := some "f.wav" },
        { type := "default", voice_name := some "mini" }, "SERVER_KEY") :=
  ⟨rfl, by decide⟩

/-- C8 amended: `/api/generate_podcast` authenticates every provider
call (voice preparation and podcast generation) with the caller-supplied
API key of that request; `/api/clone-voice` uses the caller-supplied key
when it is a nonempty string and otherwise falls back to the configured
`MINIMAX_API_KEY`. -/
theorem C8_api_key_usage (sf : String → String) (sid : String)
    (o : Oracles) (r : GenRequest) (cfg : String) (ex : String → Bool)
    (o2 : Oracles) (d : CloneBody) :
    (∀ t, (generate o (extract sf sid r)).prepareVoicesArgs = some t →
      t.2.2 = pyStrip r.api_key) ∧
    (∀ u, (generate o (extract sf sid r)).genStreamArgs = some u →
      u.2.2.2.2 = pyStrip r.api_key) ∧
    (∀ t, (clone_voice cfg ex o2 (some d)).prepareVoicesArgs = some t →
      t.2.2 = if d.api_key.getD "" = "" then cfg else d.api_key.getD "") := by
  refine ⟨?_, ?_, ?_⟩
  · intro t ht
    exact (generate_prepArgs o _ t ht).1
  · intro u hu
    exact (generate_genArgs o _ u hu).2
  · intro t ht
    simp only [clone_voice] at ht
    split at ht
    · cases ht
    · rename_i fp hfp
      split at ht
      · cases ht
      · split at ht <;> first
          | (cases ht; rfl)
          | (split at ht <;> cases ht <;> rfl)

/-- C8 witness: on `rTextUrl`, voice preparation is called with the
caller's key `"k"`. -/
theorem C8_witness :
    (generate oracle0 (extract id "s" rTextUrl)).prepareVoicesArgs =
      some ({ type := "default", voice_name := some "mini" },
        { type := "default", voice_name := some "max" }, "k") ∧
    "k" = pyStrip rTextUrl.api_key :=
  ⟨by decide,
    (C8_api_key_usage id "s" oracle0 rTextUrl "c" (fun _ => true) oracle0
      cloneNoKey).1
      ({ type := "default", voice_name := some "mini" },
        { type := "default", voice_name := some "max" }, "k") (by decide)⟩

/-- Any saved PDF path has the session-id prefix shape. -/
theorem pdfPath_shape (sf : String → String) (sid : String) (r : GenRequest)
    (p : String) (h : pdfPath sf sid r = some p) :
    ∃ n, p = UPLOAD_DIR ++ "/" ++ sid ++ "_" ++ n := by
  rcases Option.map_eq_some'.mp h with ⟨n, _, rfl⟩
  exact ⟨n, rfl⟩

/-- Any saved speaker-audio path has the session-id prefix shape. -/
theorem audioPath_shape (sf : String → String) (sid ty : String)
    (slot : Option String) (tag p : String)
    (h : audioPath sf sid ty slot tag = some p) :
    ∃ n, p = UPLOAD_DIR ++ "/" ++ sid ++ "_" ++ n := by
  simp only [audioPath] at h
  split at h
  · split at h
    · split at h
      · cases h
        exact ⟨tag ++ "_" ++ sf _, by
          rw [String.append_assoc _ tag, String.append_assoc _ (tag ++ "_")]⟩
      · cases h
    · cases h
  · cases h

/-- C7 counterexample: `/api/upload_audio` takes the session id from the
client form when present, so two distinct requests (distinct fresh
server ids `"f1"`, `"f2"`) that both send `session_id=abc` store files
sharing the `abc_` name prefix, refuting the claim that the session id
is server-generated fresh per request and prefixes never collide. -/
theorem C7_counterexample :
    (upload_audio "f1" 1 { audio := some "a.webm", session_id := some "abc", speaker := some "s1" }).filename
      = "abc" ++ "_" ++ "s1_1.wav" ∧
    (upload_audio "f2" 2 { audio := some "b.webm", session_id := some "abc", speaker := some "s2" }).filename
      = "abc" ++ "_" ++ "s2_2.wav" ∧
    ("f1" : String) ≠ "f2" := by
  refine ⟨by decide, by decide, by decide⟩

/-- C7 amended: in `/api/generate_podcast` every saved upload's path is
prefixed by that request's server-generated session id; in
`/api/upload_audio` the filename is prefixed by the client-supplied
session id when one is sent, and only otherwise by the fresh
server-generated id — so name prefixes of different requests can
coincide. -/
theorem C7_session_prefixing (sf : String → String) (sid : String)
    (o : Oracles) (r : GenRequest) (fresh : String) (now : Nat)
    (u : UploadRequest) :
    (∀ p, p ∈ (generate_podcast sf sid o r).saved →
      ∃ rest, p = UPLOAD_DIR ++ "/" ++ sid ++ "_" ++ rest) ∧
    (∀ s, u.session_id = some s → ∀ fn, u.audio = some fn → fn ≠ "" →
      ∃ rest, (upload_audio fresh now u).filename = s ++ "_" ++ rest) ∧
    (u.session_id = none → ∀ fn, u.audio = some fn → fn ≠ "" →
      ∃ rest, (upload_audio fresh now u).filename = fresh ++ "_" ++ rest) := by
  refine ⟨?_, ?_, ?_⟩
  · intro p hp
    by_cases hk : pyStrip r.api_key = ""
    · rw [show generate_podcast sf sid o r
          = { events := [errEvent "未提供 API Key"] } by
        simp [generate_podcast, hk]] at hp
      cases hp
    · rw [show (generate_podcast sf sid o r).saved = (extract sf sid r).saved
          by simp [generate_podcast, hk]] at hp
      rcases List.mem_append.mp hp with hp1 | h2
      · rcases List.mem_append.mp hp1 with hpdf | hs1
        · exact (pdfPath_shape sf sid r p (by simpa using hpdf)).imp
            (fun n hn => hn)
        · exact (audioPath_shape sf sid _ _ _ p (by simpa using hs1)).imp
            (fun n hn => hn)
      · exact (audioPath_shape sf sid _ _ _ p (by simpa using h2)).imp
          (fun n hn => hn)
  · intro s hs fn hfn hne
    refine ⟨u.speaker.getD "unknown" ++ "_" ++ toString now ++ ".wav", ?_⟩
    simp only [upload_audio, hfn, hne, hs]
    simp [String.append_assoc]
  · intro hs fn hfn hne
    refine ⟨u.speaker.getD "unknown" ++ "_" ++ toString now ++ ".wav", ?_⟩
    simp only [upload_audio, hfn, hne, hs]
    simp [String.append_assoc]

/-- C7 witness: a concrete `/api/generate_podcast` request's saved file
carries the session prefix, and a concrete `/api/upload_audio` request
with a client session id is prefixed by that id. -/
theorem C7_witness :
    (∃ rest, ("uploads/s_speaker2_song.mp3" : String)
      = UPLOAD_DIR ++ "/" ++ "s" ++ "_" ++ rest) ∧
    ∃ rest,
      (upload_audio "f1" 1 { audio := some "a.webm", session_id := some "abc", speaker := some "s1" }).filename
        = "abc" ++ "_" ++ rest := by
  constructor
  · exact (C7_session_prefixing id "s" oracle0 rBadUploads "f1" 1
        { audio := some "a.webm", session_id := some "abc", speaker := some "s1" }).1
      "uploads/s_speaker2_song.mp3" (by decide)
  · exact (C7_session_prefixing id "s" oracle0 rBadUploads "f1" 1
        { audio := some "a.webm", session_id := some "abc", speaker := some "s1" }).2.1
      "abc" rfl "a.webm" rfl (by decide)

/-- `stepGen` only appends to the events accumulated so far. -/
theorem stepGen_extends (o : Oracles) (x : Extracted) (acc : List Event)
    (m v1 v2 : String) :
    ∃ t, (stepGen o x acc m v1 v2).events = acc ++ t := by
  simp only [stepGen]
  split
  · exact ⟨_, rfl⟩
  · exact ⟨_, List.append_assoc _ _ _⟩

/-- `stepPrepare` only appends to the events accumulated so far. -/
theorem stepPrepare_extends (o : Oracles) (x : Extracted) (acc : List Event)
    (m : String) (c1 c2 : SpeakerConfig) :
    ∃ t, (stepPrepare o x acc m c1 c2).events = acc ++ t := by
  simp only [stepPrepare]
  split
  · exact ⟨_, rfl⟩
  · split
    · obtain ⟨t, ht⟩ := stepGen_extends o x (acc ++ _ ++ _) m _ _
      exact ⟨_, by rw [ht, List.append_assoc, List.append_assoc]⟩
    · exact ⟨_, rfl⟩

/-- `stepVoices2` only appends to the events accumulated so far. -/
theorem stepVoices2_extends (o : Oracles) (x : Extracted) (acc : List Event)
    (m : String) (c1 : SpeakerConfig) :
    ∃ t, (stepVoices2 o x acc m c1).events = acc ++ t := by
  simp only [stepVoices2]
  split
  · exact stepPrepare_extends o x acc m _ _
  · split
    · split
      · obtain ⟨t, ht⟩ := stepPrepare_extends o x (acc ++ _) m _ _
        exact ⟨_, by rw [ht, List.append_assoc]⟩
      · exact ⟨_, rfl⟩
    · exact stepPrepare_extends o x acc m _ _

/-- `stepVoices` only appends to the events accumulated so far. -/
theorem stepVoices_extends (o : Oracles) (x : Extracted) (acc : List Event)
    (m : String) :
    ∃ t, (stepVoices o x acc m).events = acc ++ t := by
  simp only [stepVoices]
  split
  · obtain ⟨t, ht⟩ := stepVoices2_extends o x (acc ++ _) m _
    exact ⟨_, by rw [ht, List.append_assoc]⟩
  · split
    · split
      · obtain ⟨t, ht⟩ := stepVoices2_extends o x (acc ++ _ ++ _) m _
        exact ⟨_, by rw [ht, List.append_assoc, List.append_assoc]⟩
      · exact ⟨_, List.append_assoc _ _ _⟩
    · obtain ⟨t, ht⟩ := stepVoices2_extends o x (acc ++ _) m _
      exact ⟨_, by rw [ht, List.append_assoc]⟩

/-- `stepMerge` only appends to the events accumulated so far. -/
theorem stepMerge_extends (o : Oracles) (x : Extracted) (acc : List Event)
    (p u : String) :
    ∃ t, (stepMerge o x acc p u).events = acc ++ t := by
  simp only [stepMerge]
  split
  · exact ⟨_, rfl⟩
  · split
    · exact ⟨_, rfl⟩
    · obtain ⟨t, ht⟩ := stepVoices_extends o x (acc ++ _) _
      exact ⟨_, by rw [ht, List.append_assoc]⟩

/-- `stepMerge` always records the merge call it makes, with the
direct-text, URL and PDF contents it was given. -/
theorem stepMerge_mergeArgs (o : Oracles) (x : Extracted) (acc : List Event)
    (p u : String) :
    (stepMerge o x acc p u).mergeArgs = some (x.text_input, u, p) := by
  simp only [stepMerge]
  split
  · rfl
  · split <;> rfl

/-- C3 counterexample: in `/api/parse-content`, a URL-parse failure on a
request that also carries direct text aborts the request with an error
response — the remaining inputs are NOT merged — refuting the claim for
"every request". -/
theorem C3_counterexample :
    (parse_content id 0 oracleUrlFail pcUrlFail).success = false ∧
    (parse_content id 0 oracleUrlFail pcUrlFail).mergeArgs = none := by
  exact ⟨by decide, by decide⟩

/-- On a URL-parse failure, `stepUrl` emits the warning and continues
into the merge, with the URL contribution empty and the PDF content it
was given intact. -/
theorem stepUrl_urlfail (o : Oracles) (x : Extracted) (acc : List Event)
    (p : String) (ur : ParseResult) (hu : x.url_input ≠ "")
    (hur : o.parse_url x.url_input = Except.ok ur)
    (hf : ur.success = false) :
    warnEvent ur.error ur.error_code ∈ (stepUrl o x acc p).events ∧
    (stepUrl o x acc p).mergeArgs = some (x.text_input, "", p) := by
  have hred : stepUrl o x acc p =
      stepMerge o x
        (acc ++ [logEvent ("开始解析网址: " ++ x.url_input)]
          ++ [warnEvent ur.error ur.error_code]
          ++ List.map logEvent ur.logs) p "" := by
    simp only [stepUrl, hur, hf]
    simp [hu]
  rw [hred]
  constructor
  · obtain ⟨t, ht⟩ := stepMerge_extends o x _ p ""
    rw [ht]
    refine List.mem_append.mpr (Or.inl ?_)
    simp
  · exact stepMerge_mergeArgs o x _ p ""

/-- C3 amended: in the `/api/generate_podcast` SSE generator, a URL
parse failure is surfaced to the caller as a `url_parse_warning` event
and processing continues — the remaining inputs are still merged: the
direct text together with the parsed PDF content when a PDF was saved,
with the URL contribution empty; in `/api/parse-content`, however, a
URL parse failure aborts the request with an error response and no
merge happens. -/
theorem C3_url_failure_continues (sf : String → String) (sid : String)
    (o : Oracles) (r : GenRequest) (ur : ParseResult)
    (sf2 : String → String) (now : Nat) (o2 : Oracles)
    (r2 : ParseContentRequest) :
    ((extract sf sid r).url_input ≠ "" →
      o.parse_url (extract sf sid r).url_input = Except.ok ur →
      ur.success = false →
      ((extract sf sid r).pdf_path = none →
        warnEvent ur.error ur.error_code
          ∈ (generate o (extract sf sid r)).events ∧
        (generate o (extract sf sid r)).mergeArgs =
          some ((extract sf sid r).text_input, "", "")) ∧
      (∀ p pr, (extract sf sid r).pdf_path = some p →
        o.parse_pdf p = Except.ok pr → pr.success = true →
        warnEvent ur.error ur.error_code
          ∈ (generate o (extract sf sid r)).events ∧
        (generate o (extract sf sid r)).mergeArgs =
          some ((extract sf sid r).text_input, "", pr.content))) ∧
    (∀ ur2 : ParseResult, r2.url_input ≠ "" →
      o2.parse_url r2.url_input = Except.ok ur2 → ur2.success = false →
      (parse_content sf2 now o2 r2).success = false ∧
      (parse_content sf2 now o2 r2).mergeArgs = none) := by
  constructor
  · intro hu hur hf
    constructor
    · intro hp
      have hred : generate o (extract sf sid r) =
          stepUrl o (extract sf sid r)
            [progressEvent "parsing_content" "正在解析输入内容..."] "" := by
        simp only [generate, hp]
      rw [hred]
      exact stepUrl_urlfail o (extract sf sid r) _ "" ur hu hur hf
    · intro p pr hp hpr hs
      have hred : generate o (extract sf sid r) =
          stepUrl o (extract sf sid r)
            ([progressEvent "parsing_content" "正在解析输入内容..."]
              ++ [logEvent ("已上传 PDF: "
                ++ (extract sf sid r).pdf_file.getD "")]
              ++ List.map logEvent pr.logs) pr.content := by
        simp only [generate, hp, hpr, hs]
        simp
      rw [hred]
      exact stepUrl_urlfail o (extract sf sid r) _ pr.content ur hu hur hf
  · intro ur2 hu2 hur2 hf2
    constructor
    · simp [parse_content, hu2, hur2, hf2]
    · simp [parse_content, hu2, hur2, hf2]

/-- C3 witness: on `rTextUrl` (no PDF) and on `rPdfUrl` (with a PDF
parsed to `"pdftext"`), failing URL parsing emits the warning and the
merge still happens on the remaining inputs; on `pcUrlFail`,
`/api/parse-content` aborts without merging. -/
theorem C3_witness :
    (warnEvent "解析失败" "unknown"
        ∈ (generate oracleUrlFail (extract id "s" rTextUrl)).events ∧
      (generate oracleUrlFail (extract id "s" rTextUrl)).mergeArgs =
        some ("hello", "", "")) ∧
    (warnEvent "解析失败" "unknown"
        ∈ (generate oracleUrlFailPdf (extract id "s" rPdfUrl)).events ∧
      (generate oracleUrlFailPdf (extract id "s" rPdfUrl)).mergeArgs =
        some ("hello", "", "pdftext")) ∧
    (parse_content id 0 oracleUrlFail pcUrlFail).success = false ∧
    (parse_content id 0 oracleUrlFail pcUrlFail).mergeArgs = none := by
  have h := C3_url_failure_continues id "s" oracleUrlFail rTextUrl
    { success := false, error := "解析失败" } id 0 oracleUrlFail pcUrlFail
  have h2 := C3_url_failure_continues id "s" oracleUrlFailPdf rPdfUrl
    { success := false, error := "解析失败" } id 0 oracleUrlFail pcUrlFail
  exact ⟨(h.1 (by decide) rfl rfl).1 (by decide),
    (h2.1 (by decide) rfl rfl).2 "uploads/s_doc.pdf"
      { success := true, content := "pdftext" } (by decide) rfl rfl,
    h.2 { success := false, error := "解析失败" } (by decide) rfl rfl⟩

/-- When the generation stream raises no exception, `stepGen` emits
exactly the accumulated events followed by the stream's events. -/
theorem stepGen_shape (o : Oracles) (x : Extracted) (acc : List Event)
    (m v1 v2 : String)
    (hgen : ∀ a b c d e, (o.gen_stream a b c d e).2 = none) :
    (stepGen o x acc m v1 v2).events =
      acc ++ (o.gen_stream m v1 v2 x.session_id x.user_api_key).1 := by
  simp only [stepGen, hgen m v1 v2 x.session_id x.user_api_key]

/-- When voice preparation succeeds and generation raises nothing,
`stepPrepare` emits the accumulated events, then voice logs and trace
ids, then the generation stream. -/
theorem stepPrepare_shape (o : Oracles) (x : Extracted) (acc : List Event)
    (m : String) (c1 c2 : SpeakerConfig)
    (hprep : ∀ c1 c2 k, ∃ vr, o.prepare_voices c1 c2 k = Except.ok vr ∧
      vr.success = true)
    (hgen : ∀ a b c d e, (o.gen_stream a b c d e).2 = none) :
    ∃ D E, (stepPrepare o x acc m c1 c2).events = acc ++ (D ++ E) ∧
      (∀ ev ∈ D, ev.type = "log" ∨ ev.type = "trace_id") ∧
      ∃ a b c d e, E = (o.gen_stream a b c d e).1 := by
  obtain ⟨vr, hvr, hs⟩ := hprep c1 c2 x.user_api_key
  refine ⟨List.map logEvent vr.logs
    ++ List.map (fun kv => traceEvent kv.1 kv.2)
        (List.filter (fun kv => decide (kv.2 ≠ "")) vr.trace_ids),
    (o.gen_stream m vr.speaker1 vr.speaker2 x.session_id x.user_api_key).1,
    ?_, ?_, m, vr.speaker1, vr.speaker2, x.session_id, x.user_api_key, rfl⟩
  · simp only [stepPrepare, hvr, hs, if_true]
    rw [stepGen_shape o x _ m _ _ hgen]
    simp [List.append_assoc]
  · intro ev hev
    rcases List.mem_append.mp hev with hl | ht
    · exact Or.inl (logEvent_type _ ev hl)
    · exact Or.inr (traceEvent_type _ ev ht)

/-- Under success hypotheses, `stepVoices2` emits the accumulated
events, then voice-phase logs/trace ids, then the generation stream. -/
theorem stepVoices2_shape (o : Oracles) (x : Extracted) (acc : List Event)
    (m : String) (c1 : SpeakerConfig)
    (hs2 : x.speaker2_type = "custom" → x.speaker2_audio_path ≠ none)
    (hprep : ∀ c1 c2 k, ∃ vr, o.prepare_voices c1 c2 k = Except.ok vr ∧
      vr.success = true)
    (hgen : ∀ a b c d e, (o.gen_stream a b c d e).2 = none) :
    ∃ D E, (stepVoices2 o x acc m c1).events = acc ++ (D ++ E) ∧
      (∀ ev ∈ D, ev.type = "log" ∨ ev.type = "trace_id") ∧
      ∃ a b c d e, E = (o.gen_stream a b c d e).1 := by
  simp only [stepVoices2]
  split
  · exact stepPrepare_shape o x acc m _ _ hprep hgen
  · split
    · rename_i h2c
      split
      · rename_i fn hfn
        obtain ⟨D, E, hev, hD, hE⟩ := stepPrepare_shape o x
          (acc ++ [logEvent "Speaker2 音频已上传"]) m c1
          { type := "custom", audio_file := some fn } hprep hgen
        refine ⟨logEvent "Speaker2 音频已上传" :: D, E, ?_, ?_, hE⟩
        · rw [hev]
          simp
        · intro ev hev2
          rcases List.mem_cons.mp hev2 with rfl | hin
          · exact Or.inl rfl
          · exact hD ev hin
      · rename_i hnone
        exact absurd hnone (hs2 (by assumption))
    · exact stepPrepare_shape o x acc m _ _ hprep hgen

/-- Under success hypotheses, `stepVoices` emits the accumulated events,
the `preparing_voices` progress event, then voice-phase logs/trace ids,
then the generation stream. -/
theorem stepVoices_shape (o : Oracles) (x : Extracted) (acc : List Event)
    (m : String)
    (hs1 : x.speaker1_type = "custom" → x.speaker1_audio_path ≠ none)
    (hs2 : x.speaker2_type = "custom" → x.speaker2_audio_path ≠ none)
    (hprep : ∀ c1 c2 k, ∃ vr, o.prepare_voices c1 c2 k = Except.ok vr ∧
      vr.success = true)
    (hgen : ∀ a b c d e, (o.gen_stream a b c d e).2 = none) :
    ∃ D E, (stepVoices o x acc m).events =
        acc ++ (progressEvent "preparing_voices" "正在准备音色..." :: (D ++ E)) ∧
      (∀ ev ∈ D, ev.type = "log" ∨ ev.type = "trace_id") ∧
      ∃ a b c d e, E = (o.gen_stream a b c d e).1 := by
  simp only [stepVoices]
  split
  · obtain ⟨D, E, hev, hD, hE⟩ := stepVoices2_shape o x
      (acc ++ [progressEvent "preparing_voices" "正在准备音色..."]) m _
      hs2 hprep hgen
    exact ⟨D, E, by rw [hev]; simp, hD, hE⟩
  · split
    · rename_i h1c
      split
      · rename_i fn hfn
        obtain ⟨D, E, hev, hD, hE⟩ := stepVoices2_shape o x
          (acc ++ [progressEvent "preparing_voices" "正在准备音色..."]
            ++ [logEvent "Speaker1 音频已上传"]) m
          { type := "custom", audio_file := some fn } hs2 hprep hgen
        refine ⟨logEvent "Speaker1 音频已上传" :: D, E, ?_, ?_, hE⟩
        · rw [hev]
          simp
        · intro ev hev2
          rcases List.mem_cons.mp hev2 with rfl | hin
          · exact Or.inl rfl
          · exact hD ev hin
      · rename_i hnone
        exact absurd hnone (hs1 (by assumption))
    · obtain ⟨D, E, hev, hD, hE⟩ := stepVoices2_shape o x
        (acc ++ [progressEvent "preparing_voices" "正在准备音色..."]) m _
        hs2 hprep hgen
      exact ⟨D, E, by rw [hev]; simp, hD, hE⟩

/-- Under success hypotheses, `stepMerge` emits the accumulated events,
the merged-content log, the `preparing_voices` progress event, the
voice-phase events, then the generation stream. -/
theorem stepMerge_shape (o : Oracles) (x : Extracted) (acc : List Event)
    (p u : String)
    (hs1 : x.speaker1_type = "custom" → x.speaker1_audio_path ≠ none)
    (hs2 : x.speaker2_type = "custom" → x.speaker2_audio_path ≠ none)
    (hmerge : ∀ a b c, ∃ m, o.merge_contents a b c = Except.ok m ∧
      m ≠ "" ∧ m ≠ "没有可用的内容")
    (hprep : ∀ c1 c2 k, ∃ vr, o.prepare_voices c1 c2 k = Except.ok vr ∧
      vr.success = true)
    (hgen : ∀ a b c d e, (o.gen_stream a b c d e).2 = none) :
    ∃ B D E, (stepMerge o x acc p u).events =
        acc ++ (B ++ (progressEvent "preparing_voices" "正在准备音色..."
          :: (D ++ E))) ∧
      (∀ ev ∈ B, ev.type = "log") ∧
      (∀ ev ∈ D, ev.type = "log" ∨ ev.type = "trace_id") ∧
      ∃ a b c d e, E = (o.gen_stream a b c d e).1 := by
  obtain ⟨m, hm, hne, hns⟩ := hmerge x.text_input u p
  have hcond : ¬(m = "" ∨ m = "没有可用的内容") := by
    rintro (h | h)
    · exact hne h
    · exact hns h
  simp only [stepMerge, hm, hcond, if_false]
  obtain ⟨D, E, hev, hD, hE⟩ := stepVoices_shape o x
    (acc ++ [logEvent ("内容解析完成，共 " ++ toString m.length ++ " 字符")]) m
    hs1 hs2 hprep hgen
  refine ⟨[logEvent ("内容解析完成，共 " ++ toString m.length ++ " 字符")],
    D, E, ?_, ?_, hD, hE⟩
  · rw [hev]
    simp
  · intro ev hev2
    rw [List.mem_singleton.mp hev2]
    rfl

/-- Under success hypotheses (URL parsing returns a result, possibly
unsuccessful), `stepUrl` emits the accumulated events, content-phase
log/warning events, the `preparing_voices` progress event, the
voice-phase events, then the generation stream. -/
theorem stepUrl_shape (o : Oracles) (x : Extracted) (acc : List Event)
    (p : String)
    (hs1 : x.speaker1_type = "custom" → x.speaker1_audio_path ≠ none)
    (hs2 : x.speaker2_type = "custom" → x.speaker2_audio_path ≠ none)
    (hurl : ∀ u, ∃ ur, o.parse_url u = Except.ok ur)
    (hmerge : ∀ a b c, ∃ m, o.merge_contents a b c = Except.ok m ∧
      m ≠ "" ∧ m ≠ "没有可用的内容")
    (hprep : ∀ c1 c2 k, ∃ vr, o.prepare_voices c1 c2 k = Except.ok vr ∧
      vr.success = true)
    (hgen : ∀ a b c d e, (o.gen_stream a b c d e).2 = none) :
    ∃ B D E, (stepUrl o x acc p).events =
        acc ++ (B ++ (progressEvent "preparing_voices" "正在准备音色..."
          :: (D ++ E))) ∧
      (∀ ev ∈ B, ev.type = "log" ∨ ev.type = "url_parse_warning") ∧
      (∀ ev ∈ D, ev.type = "log" ∨ ev.type = "trace_id") ∧
      ∃ a b c d e, E = (o.gen_stream a b c d e).1 := by
  simp only [stepUrl]
  split
  · split
    · rename_i e heq
      obtain ⟨ur, hur⟩ := hurl x.url_input
      rw [heq] at hur
      cases hur
    · rename_i ur heq
      split
      · obtain ⟨B, D, E, hev, hB, hD, hE⟩ := stepMerge_shape o x
          (acc ++ [logEvent ("开始解析网址: " ++ x.url_input)]
            ++ List.map logEvent ur.logs) p ur.content hs1 hs2 hmerge hprep hgen
        refine ⟨logEvent ("开始解析网址: " ++ x.url_input)
          :: (List.map logEvent ur.logs ++ B), D, E, ?_, ?_, hD, hE⟩
        · rw [hev]
          simp
        · intro ev hev2
          rcases List.mem_cons.mp hev2 with rfl | hin
          · exact Or.inl rfl
          · rcases List.mem_append.mp hin with hl | hb
            · exact Or.inl (logEvent_type _ ev hl)
            · exact Or.inl (hB ev hb)
      · obtain ⟨B, D, E, hev, hB, hD, hE⟩ := stepMerge_shape o x
          (acc ++ [logEvent ("开始解析网址: " ++ x.url_input)]
            ++ [warnEvent ur.error ur.error_code]
            ++ List.map logEvent ur.logs) p "" hs1 hs2 hmerge hprep hgen
        refine ⟨logEvent ("开始解析网址: " ++ x.url_input)
          :: (warnEvent ur.error ur.error_code
            :: (List.map logEvent ur.logs ++ B)), D, E, ?_, ?_, hD, hE⟩
        · rw [hev]
          simp
        · intro ev hev2
          rcases List.mem_cons.mp hev2 with rfl | hin
          · exact Or.inl rfl
          · rcases List.mem_cons.mp hin with rfl | hin2
            · exact Or.inr rfl
            · rcases List.mem_append.mp hin2 with hl | hb
              · exact Or.inl (logEvent_type _ ev hl)
              · exact Or.inl (hB ev hb)
  · obtain ⟨B, D, E, hev, hB, hD, hE⟩ := stepMerge_shape o x acc p ""
      hs1 hs2 hmerge hprep hgen
    exact ⟨B, D, E, hev, fun ev hb => Or.inl (hB ev hb), hD, hE⟩

/-- Under success hypotheses, the generator's stream is exactly: the
`parsing_content` progress event, content-phase log/warning events, the
`preparing_voices` progress event, voice-phase log/trace events, then
the forwarded generation stream. -/
theorem generate_shape (o : Oracles) (x : Extracted)
    (hs1 : x.speaker1_type = "custom" → x.speaker1_audio_path ≠ none)
    (hs2 : x.speaker2_type = "custom" → x.speaker2_audio_path ≠ none)
    (hpdf : ∀ q, ∃ pr, o.parse_pdf q = Except.ok pr ∧ pr.success = true)
    (hurl : ∀ u, ∃ ur, o.parse_url u = Except.ok ur)
    (hmerge : ∀ a b c, ∃ m, o.merge_contents a b c = Except.ok m ∧
      m ≠ "" ∧ m ≠ "没有可用的内容")
    (hprep : ∀ c1 c2 k, ∃ vr, o.prepare_voices c1 c2 k = Except.ok vr ∧
      vr.success = true)
    (hgen : ∀ a b c d e, (o.gen_stream a b c d e).2 = none) :
    ∃ B D E, (generate o x).events =
        progressEvent "parsing_content" "正在解析输入内容..."
          :: (B ++ (progressEvent "preparing_voices" "正在准备音色..."
            :: (D ++ E))) ∧
      (∀ ev ∈ B, ev.type = "log" ∨ ev.type = "url_parse_warning") ∧
      (∀ ev ∈ D, ev.type = "log" ∨ ev.type = "trace_id") ∧
      ∃ a b c d e, E = (o.gen_stream a b c d e).1 := by
  simp only [generate]
  split
  · rename_i q hq
    split
    · rename_i e heq
      obtain ⟨pr, hpr, hsucc⟩ := hpdf q
      rw [heq] at hpr
      cases hpr
    · rename_i pr2 heq
      obtain ⟨pr, hpr, hsucc⟩ := hpdf q
      rw [heq] at hpr
      obtain rfl : pr2 = pr := by injection hpr
      split
      · obtain ⟨B, D, E, hev, hB, hD, hE⟩ := stepUrl_shape o x
          ([progressEvent "parsing_content" "正在解析输入内容..."]
            ++ [logEvent ("已上传 PDF: " ++ x.pdf_file.getD "")]
            ++ List.map logEvent pr2.logs) pr2.content hs1 hs2 hurl hmerge
          hprep hgen
        refine ⟨logEvent ("已上传 PDF: " ++ x.pdf_file.getD "")
          :: (List.map logEvent pr2.logs ++ B), D, E, ?_, ?_, hD, hE⟩
        · rw [hev]
          simp
        · intro ev hev2
          rcases List.mem_cons.mp hev2 with rfl | hin
          · exact Or.inl rfl
          · rcases List.mem_append.mp hin with hl | hb
            · exact Or.inl (logEvent_type _ ev hl)
            · exact hB ev hb
      · rename_i hns
        exact absurd hsucc hns
  · obtain ⟨B, D, E, hev, hB, hD, hE⟩ := stepUrl_shape o x
      [progressEvent "parsing_content" "正在解析输入内容..."] "" hs1 hs2 hurl
      hmerge hprep hgen
    refine ⟨B, D, E, ?_, hB, hD, hE⟩
    rw [hev]
    simp

/-- C6: On every successful `/api/generate_podcast` stream (all external
calls succeed, merged content nonempty, custom speakers have saved
audio, API key present), events come in the pipeline's fixed order: the
`parsing_content` progress event first, then the content-parsing
log/warning events, then the `preparing_voices` progress event, then
the voice-preparation log and trace_id events, then the forwarded
podcast-generation events; and the saved uploads are exactly those
computed from the request before the generator runs (independently of
the oracles). -/
theorem C6_pipeline_order (sf : String → String) (sid : String)
    (o : Oracles) (r : GenRequest)
    (hk : pyStrip r.api_key ≠ "")
    (hs1 : r.speaker1_type = "custom" →
      (extract sf sid r).speaker1_audio_path ≠ none)
    (hs2 : r.speaker2_type = "custom" →
      (extract sf sid r).speaker2_audio_path ≠ none)
    (hpdf : ∀ q, ∃ pr, o.parse_pdf q = Except.ok pr ∧ pr.success = true)
    (hurl : ∀ u, ∃ ur, o.parse_url u = Except.ok ur)
    (hmerge : ∀ a b c, ∃ m, o.merge_contents a b c = Except.ok m ∧
      m ≠ "" ∧ m ≠ "没有可用的内容")
    (hprep : ∀ c1 c2 k, ∃ vr, o.prepare_voices c1 c2 k = Except.ok vr ∧
      vr.success = true)
    (hgen : ∀ a b c d e, (o.gen_stream a b c d e).2 = none) :
    (∃ B D E, (generate_podcast sf sid o r).events
        = [progressEvent "parsing_content" "正在解析输入内容..."] ++ B
          ++ [progressEvent "preparing_voices" "正在准备音色..."] ++ D ++ E
      ∧ (∀ ev ∈ B, ev.type = "log" ∨ ev.type = "url_parse_warning")
      ∧ (∀ ev ∈ D, ev.type = "log" ∨ ev.type = "trace_id")
      ∧ ∃ a b c d e, E = (o.gen_stream a b c d e).1) ∧
    (generate_podcast sf sid o r).saved = (extract sf sid r).saved := by
  have hev : (generate_podcast sf sid o r).events =
      (generate o (extract sf sid r)).events := by
    simp [generate_podcast, hk]
  obtain ⟨B, D, E, hsh, hB, hD, hE⟩ := generate_shape o (extract sf sid r)
    hs1 hs2 hpdf hurl hmerge hprep hgen
  refine ⟨⟨B, D, E, ?_, hB, hD, hE⟩, by simp [generate_podcast, hk]⟩
  rw [hev, hsh]
  simp [List.append_assoc]

/-- C6 witness: a concrete successful run on `rTextUrl`. -/
theorem C6_witness :
    (∃ B D E, (generate_podcast id "s" oracleAll rTextUrl).events
        = [progressEvent "parsing_content" "正在解析输入内容..."] ++ B
          ++ [progressEvent "preparing_voices" "正在准备音色..."] ++ D ++ E
      ∧ (∀ ev ∈ B, ev.type = "log" ∨ ev.type = "url_parse_warning")
      ∧ (∀ ev ∈ D, ev.type = "log" ∨ ev.type = "trace_id")
      ∧ ∃ a b c d e, E = (oracleAll.gen_stream a b c d e).1) ∧
    (generate_podcast id "s" oracleAll rTextUrl).saved
      = (extract id "s" rTextUrl).saved :=
  C6_pipeline_order id "s" oracleAll rTextUrl (by decide)
    (fun h => absurd h (by decide)) (fun h => absurd h (by decide))
    (fun _ => ⟨{ success := true }, rfl, rfl⟩)
    (fun _ => ⟨{ success := true }, rfl⟩)
    (fun _ _ _ => ⟨"content", rfl, by decide, by decide⟩)
    (fun _ _ _ => ⟨{ success := true, speaker1 := "v1", speaker2 := "v2" },
      rfl, rfl⟩)
    (fun _ _ _ _ _ => rfl)
